import Mathlib

/-!
Shallow embedding of the PDF-form extraction pipeline
(section classification, pattern extraction, normalization, orchestration).

Python dictionaries are modelled as insertion-ordered association lists
with unique keys; Python values (str | bool | None | int | dict | list)
are modelled by the inductive type `PyVal`.  Functions that can raise a
Python exception return `Except String _`; the string names the Python
exception class.  Machine-level details that cannot affect any claim
(Unicode case folding beyond ASCII, exotic whitespace code points) are
modelled at ASCII precision, which covers every value appearing in the
configured pattern tables and in the theorems below.
-/

set_option maxRecDepth 10000

namespace Spec2Proof

/-- Python runtime values that flow through the pipeline. -/
inductive PyVal where
  | str (s : String)
  | bool (b : Bool)
  | none
  | int (n : Int)
  | dict (xs : List (String × PyVal))
  | list (xs : List PyVal)
  deriving Repr, BEq

mutual

/-- Structural equality test for `PyVal`. -/
def PyVal.eqv : PyVal → PyVal → Bool
  | .str a, .str b => a = b
  | .bool a, .bool b => a = b
  | .none, .none => true
  | .int a, .int b => a = b
  | .dict a, .dict b => eqvDict a b
  | .list a, .list b => eqvList a b
  | _, _ => false

def PyVal.eqvDict : List (String × PyVal) → List (String × PyVal) → Bool
  | [], [] => true
  | (k, v) :: xs, (k2, v2) :: ys => k = k2 && PyVal.eqv v v2 && eqvDict xs ys
  | _, _ => false

def PyVal.eqvList : List PyVal → List PyVal → Bool
  | [], [] => true
  | x :: xs, y :: ys => PyVal.eqv x y && eqvList xs ys
  | _, _ => false

end

mutual

def PyVal.eqv_refl : (v : PyVal) → PyVal.eqv v v = true
  | .str _ => by simp [PyVal.eqv]
  | .bool _ => by simp [PyVal.eqv]
  | .none => by simp [PyVal.eqv]
  | .int _ => by simp [PyVal.eqv]
  | .dict xs => by simp [PyVal.eqv]; exact PyVal.eqvDict_refl xs
  | .list xs => by simp [PyVal.eqv]; exact PyVal.eqvList_refl xs

def PyVal.eqvDict_refl : (xs : List (String × PyVal)) → PyVal.eqvDict xs xs = true
  | [] => by simp [PyVal.eqvDict]
  | (k, v) :: xs => by
      simp [PyVal.eqvDict]
      exact ⟨PyVal.eqv_refl v, PyVal.eqvDict_refl xs⟩

def PyVal.eqvList_refl : (xs : List PyVal) → PyVal.eqvList xs xs = true
  | [] => by simp [PyVal.eqvList]
  | x :: xs => by
      simp [PyVal.eqvList]
      exact ⟨PyVal.eqv_refl x, PyVal.eqvList_refl xs⟩

end

mutual

def PyVal.eqv_eq : (a b : PyVal) → PyVal.eqv a b = true → a = b
  | .str _, .str _ => by simp [PyVal.eqv]
  | .bool _, .bool _ => by simp [PyVal.eqv]
  | .none, .none => by simp [PyVal.eqv]
  | .int _, .int _ => by simp [PyVal.eqv]
  | .dict xs, .dict ys => by
      simp only [PyVal.eqv]
      intro h
      exact congrArg PyVal.dict (PyVal.eqvDict_eq xs ys h)
  | .list xs, .list ys => by
      simp only [PyVal.eqv]
      intro h
      exact congrArg PyVal.list (PyVal.eqvList_eq xs ys h)
  | .str _, .bool _ => by simp [PyVal.eqv]
  | .str _, .none => by simp [PyVal.eqv]
  | .str _, .int _ => by simp [PyVal.eqv]
  | .str _, .dict _ => by simp [PyVal.eqv]
  | .str _, .list _ => by simp [PyVal.eqv]
  | .bool _, .str _ => by simp [PyVal.eqv]
  | .bool _, .none => by simp [PyVal.eqv]
  | .bool _, .int _ => by simp [PyVal.eqv]
  | .bool _, .dict _ => by simp [PyVal.eqv]
  | .bool _, .list _ => by simp [PyVal.eqv]
  | .none, .str _ => by simp [PyVal.eqv]
  | .none, .bool _ => by simp [PyVal.eqv]
  | .none, .int _ => by simp [PyVal.eqv]
  | .none, .dict _ => by simp [PyVal.eqv]
  | .none, .list _ => by simp [PyVal.eqv]
  | .int _, .str _ => by simp [PyVal.eqv]
  | .int _, .bool _ => by simp [PyVal.eqv]
  | .int _, .none => by simp [PyVal.eqv]
  | .int _, .dict _ => by simp [PyVal.eqv]
  | .int _, .list _ => by simp [PyVal.eqv]
  | .dict _, .str _ => by simp [PyVal.eqv]
  | .dict _, .bool _ => by simp [PyVal.eqv]
  | .dict _, .none => by simp [PyVal.eqv]
  | .dict _, .int _ => by simp [PyVal.eqv]
  | .dict _, .list _ => by simp [PyVal.eqv]
  | .list _, .str _ => by simp [PyVal.eqv]
  | .list _, .bool _ => by simp [PyVal.eqv]
  | .list _, .none => by simp [PyVal.eqv]
  | .list _, .int _ => by simp [PyVal.eqv]
  | .list _, .dict _ => by simp [PyVal.eqv]

def PyVal.eqvDict_eq : (a b : List (String × PyVal)) → PyVal.eqvDict a b = true → a = b
  | [], [] => by simp [PyVal.eqvDict]
  | (k, v) :: xs, (k2, v2) :: ys => by
      simp only [PyVal.eqvDict, Bool.and_eq_true, decide_eq_true_eq]
      rintro ⟨⟨hk, hv⟩, hxs⟩
      rw [hk, PyVal.eqv_eq v v2 hv, PyVal.eqvDict_eq xs ys hxs]
  | [], _ :: _ => by simp [PyVal.eqvDict]
  | _ :: _, [] => by simp [PyVal.eqvDict]

def PyVal.eqvList_eq : (a b : List PyVal) → PyVal.eqvList a b = true → a = b
  | [], [] => by simp [PyVal.eqvList]
  | x :: xs, y :: ys => by
      simp only [PyVal.eqvList, Bool.and_eq_true]
      rintro ⟨hv, hxs⟩
      rw [PyVal.eqv_eq x y hv, PyVal.eqvList_eq xs ys hxs]
  | [], _ :: _ => by simp [PyVal.eqvList]
  | _ :: _, [] => by simp [PyVal.eqvList]

end

instance : DecidableEq PyVal := fun a b =>
  if h : PyVal.eqv a b = true then
    .isTrue (PyVal.eqv_eq a b h)
  else
    .isFalse (fun he => h (he ▸ PyVal.eqv_refl a))

/-- Decidable equality of fallible results. -/
instance {α : Type} [DecidableEq α] : DecidableEq (Except String α) := fun a b =>
  match a, b with
  | .ok x, .ok y =>
      if h : x = y then .isTrue (h ▸ rfl)
      else .isFalse (fun he => h (by injection he))
  | .error x, .error y =>
      if h : x = y then .isTrue (h ▸ rfl)
      else .isFalse (fun he => h (by injection he))
  | .ok _, .error _ => .isFalse (fun he => Except.noConfusion he)
  | .error _, .ok _ => .isFalse (fun he => Except.noConfusion he)

/-- A Python dict: insertion-ordered association list. -/
abbrev PyDict := List (String × PyVal)

/-- Python `d.get(k)` / `d[k]` lookup (dicts built by the pipeline have
unique keys, so first-match lookup is exact). -/
def pyGet (d : PyDict) (k : String) : Option PyVal :=
  match d with
  | [] => Option.none
  | (k2, v) :: rest => if k2 = k then some v else pyGet rest k

/-- Python `d[k] = v`: replace in place if the key exists, else append. -/
def pySet (d : PyDict) (k : String) (v : PyVal) : PyDict :=
  match d with
  | [] => [(k, v)]
  | (k2, v2) :: rest =>
      if k2 = k then (k2, v) :: rest else (k2, v2) :: pySet rest k v

/-- Python `k in d`. -/
def pyContains (d : PyDict) (k : String) : Bool :=
  match d with
  | [] => false
  | (k2, _) :: rest => k2 = k || pyContains rest k

/-- Python `d.pop(k)`: the dict with the first binding of `k` removed. -/
def pyPop (d : PyDict) (k : String) : PyDict :=
  match d with
  | [] => []
  | (k2, v2) :: rest =>
      if k2 = k then rest else (k2, v2) :: pyPop rest k

/-- Python truthiness for the values in play. -/
def pyTruthy : PyVal → Bool
  | .str s => s ≠ ""
  | .bool b => b
  | .none => false
  | .int n => n ≠ 0
  | .dict xs => xs ≠ []
  | .list xs => xs ≠ []

/-- Truthiness of `d.get(k)` (missing key gives `None`, which is falsy). -/
def pyGetTruthy (d : PyDict) (k : String) : Bool :=
  match pyGet d k with
  | some v => pyTruthy v
  | Option.none => false

/-- Python `v == True` (in CPython `True == 1` also holds). -/
def pyEqTrue : PyVal → Bool
  | .bool b => b
  | .int n => n = 1
  | _ => false

/-- ASCII whitespace as recognized by Python `str.strip` / `\s`
(space, tab, newline, carriage return, vertical tab, form feed). -/
def pyIsSpace (c : Char) : Bool :=
  c = ' ' || c = '\t' || c = '\n' || c = '\r' || c = '\x0b' || c = '\x0c'

/-- Python `str.strip()` at ASCII precision. -/
def pyStrip (s : String) : String :=
  String.mk (((s.data.dropWhile pyIsSpace).reverse.dropWhile pyIsSpace).reverse)

/-- Python `str.lower()` at ASCII precision. -/
def pyLower (s : String) : String :=
  String.mk (s.data.map Char.toLower)

/-- Python `str.upper()` at ASCII precision. -/
def pyUpper (s : String) : String :=
  String.mk (s.data.map Char.toUpper)

/-- Python `needle in hay` substring containment, on char lists. -/
def listContainsSub (needle : List Char) : List Char → Bool
  | [] => needle.isPrefixOf []
  | c :: rest => needle.isPrefixOf (c :: rest) || listContainsSub needle rest

/-- Python `needle in hay` substring containment on strings. -/
def pyInStr (needle hay : String) : Bool :=
  listContainsSub needle.data hay.data

/-- Python `s.endswith(t)`. -/
def pyEndsWith (s t : String) : Bool :=
  t.data.isSuffixOf s.data

/-- Python `s.replace(" ", "")`: drop every space character. -/
def pyDropSpaces (s : String) : String :=
  String.mk (s.data.filter (fun c => c ≠ ' '))

/-- Python `s.split(sep)` for a single-character separator, on char lists.
`[] ↦ [[]]`, and every separator occurrence opens a new chunk. -/
def pySplitChar (sep : Char) : List Char → List (List Char)
  | [] => [[]]
  | c :: rest =>
      let r := pySplitChar sep rest
      if c = sep then [] :: r else
        match r with
        | [] => [[c]]
        | h :: t => (c :: h) :: t

/-- Python `s.split("/")` on strings. -/
def pySplitSlash (s : String) : List String :=
  (pySplitChar '/' s.data).map String.mk

/-- Sign handling of Python `int(s)`: an optional leading `+`/`-`. -/
def pyIntSign : List Char → Int × List Char
  | '+' :: rest => (1, rest)
  | '-' :: rest => (-1, rest)
  | l => (1, l)

/-- Decimal value of a digit run. -/
def digitsToNat (l : List Char) : Nat :=
  l.foldl (fun n c => n * 10 + (c.toNat - 48)) 0

/-- Python `int(s)`: strip whitespace, optional sign, nonempty digit run
(PEP-515 underscores are rejected, which is exact for the two-character
strings this pipeline converts). -/
def pyInt? (s : String) : Option Int :=
  let sd := pyIntSign (((s.data.dropWhile pyIsSpace).reverse.dropWhile
    pyIsSpace).reverse)
  if sd.2 ≠ [] && sd.2.all Char.isDigit then
    some (sd.1 * (digitsToNat sd.2 : Int))
  else
    Option.none

/-- Python `s.zfill(2)`. -/
def pyZfill2 (s : String) : String :=
  if s.length ≥ 2 then s else String.mk (List.replicate (2 - s.length) '0' ++ s.data)

/-! ### Regular expression engine

A faithful backtracking engine for the constructs used by the
`re.compile` pattern tables: character classes, alternation,
greedy and lazy counted repetition, capturing and non-capturing
groups, anchors, dot, and the IGNORECASE flag.  Recursion is bounded
by explicit fuel (backtracking priority matches CPython: leftmost
start position, alternation tries the left branch first, greedy
repetition prefers one more iteration, lazy repetition prefers none). -/

/-- One item of a regex character class. -/
inductive RxCls where
  | rng (lo hi : Char)
  | one (c : Char)
  | digit
  | space
  | word
  deriving Repr

/-- Regex abstract syntax. -/
inductive Rx where
  | eps
  | ch (c : Char)
  | cls (neg : Bool) (items : List RxCls)
  | dot
  | seq (a b : Rx)
  | alt (a b : Rx)
  | grp (n : Nat) (a : Rx)
  | rep (lo : Nat) (hi : Option Nat) (lazy : Bool) (a : Rx)
  | bol
  | eol
  deriving Repr

/-- Membership of a char in one class item. -/
def rxClsItemMem (c : Char) : RxCls → Bool
  | .rng lo hi => lo ≤ c && c ≤ hi
  | .one d => c = d
  | .digit => c.isDigit
  | .space => pyIsSpace c
  | .word => c.isAlphanum || c = '_'

/-- Class membership with optional case folding (IGNORECASE matches a
char if either case form is in the class) and negation. -/
def rxClsMem (ci : Bool) (neg : Bool) (items : List RxCls) (c : Char) : Bool :=
  let raw := items.any (rxClsItemMem c) ||
    (ci && (items.any (rxClsItemMem c.toLower) || items.any (rxClsItemMem c.toUpper)))
  if neg then !raw else raw

/-- Literal char comparison with optional case folding. -/
def rxChEq (ci : Bool) (a b : Char) : Bool :=
  a = b || (ci && a.toLower = b.toLower)

/-- Captured group spans: (group index, start, stop), most recent first. -/
abbrev RxCaps := List (Nat × Nat × Nat)

/-- CPS backtracking matcher.  `rxRun ci chars fuel rx pos caps k` tries
to match `rx` at `pos`, invoking continuation `k` on every candidate
end position in priority order, returning the first success. -/
def rxRun (ci : Bool) (chars : List Char) :
    Nat → Rx → Nat → RxCaps →
    (Nat → RxCaps → Option (Nat × RxCaps)) → Option (Nat × RxCaps)
  | 0, _, _, _, _ => Option.none
  | Nat.succ fuel, rx, pos, caps, k =>
    match rx with
    | .eps => k pos caps
    | .ch c =>
        match chars.get? pos with
        | some d => if rxChEq ci c d then k (pos + 1) caps else Option.none
        | Option.none => Option.none
    | .cls neg items =>
        match chars.get? pos with
        | some d => if rxClsMem ci neg items d then k (pos + 1) caps else Option.none
        | Option.none => Option.none
    | .dot =>
        match chars.get? pos with
        | some d => if d = '\n' then Option.none else k (pos + 1) caps
        | Option.none => Option.none
    | .seq a b =>
        rxRun ci chars fuel a pos caps (fun p cp => rxRun ci chars fuel b p cp k)
    | .alt a b =>
        match rxRun ci chars fuel a pos caps k with
        | some r => some r
        | Option.none => rxRun ci chars fuel b pos caps k
    | .grp n a =>
        rxRun ci chars fuel a pos caps (fun p cp => k p ((n, pos, p) :: cp))
    | .rep lo hi lz a =>
        if 0 < lo then
          rxRun ci chars fuel a pos caps (fun p cp =>
            rxRun ci chars fuel (.rep (lo - 1) (hi.map (· - 1)) lz a) p cp k)
        else
          match hi with
          | some 0 => k pos caps
          | _ =>
            if lz then
              match k pos caps with
              | some r => some r
              | Option.none =>
                  rxRun ci chars fuel a pos caps (fun p cp =>
                    rxRun ci chars fuel (.rep 0 (hi.map (· - 1)) lz a) p cp k)
            else
              match rxRun ci chars fuel a pos caps (fun p cp =>
                  rxRun ci chars fuel (.rep 0 (hi.map (· - 1)) lz a) p cp k) with
              | some r => some r
              | Option.none => k pos caps
    | .bol => if pos = 0 then k pos caps else Option.none
    | .eol =>
        if pos = chars.length then k pos caps
        else if pos + 1 = chars.length && chars.get? pos = some '\n' then k pos caps
        else Option.none

/-- Structural size of a regex, used only to compute adequate fuel. -/
def rxSize : Rx → Nat
  | .eps | .ch _ | .cls _ _ | .dot | .bol | .eol => 1
  | .seq a b | .alt a b => rxSize a + rxSize b + 1
  | .grp _ a => rxSize a + 1
  | .rep _ hi _ a =>
      rxSize a * (match hi with | some n => n + 2 | Option.none => 2) + 2

/-- Fuel that is ample for the configured patterns on the inputs used. -/
def rxFuel (rx : Rx) (chars : List Char) : Nat :=
  (rxSize rx + 2) * (chars.length + 2) * 8 + 64

/-- A successful match: matched span, captures, and the subject chars. -/
structure RxMatch where
  start : Nat
  stop : Nat
  caps : RxCaps
  chars : List Char
  deriving Repr

/-- Anchored attempt at one start position (the core of `re.match`). -/
def rxMatchAt (ci : Bool) (rx : Rx) (chars : List Char) (pos : Nat) : Option RxMatch :=
  match rxRun ci chars (rxFuel rx chars) rx pos [] (fun p cp => some (p, cp)) with
  | some (stop, caps) => some ⟨pos, stop, caps, chars⟩
  | Option.none => Option.none

/-- Scan start positions `pos, pos+1, ...` (countdown on remaining). -/
def rxSearchAux (ci : Bool) (rx : Rx) (chars : List Char) :
    Nat → Nat → Option RxMatch
  | 0, pos =>
      if pos = chars.length then rxMatchAt ci rx chars pos else Option.none
  | Nat.succ n, pos =>
      match rxMatchAt ci rx chars pos with
      | some m => some m
      | Option.none => rxSearchAux ci rx chars n (pos + 1)

/-- Python `pattern.search(text)`: leftmost match. -/
def rxSearch (ci : Bool) (rx : Rx) (s : String) : Option RxMatch :=
  rxSearchAux ci rx s.data s.data.length 0

/-- Python `re.match(pattern, text)`: anchored at the string start. -/
def rxMatchStart (ci : Bool) (rx : Rx) (s : String) : Option RxMatch :=
  rxMatchAt ci rx s.data 0

/-- Python `match.group(g)`: group 0 is the whole span; a positive
index is looked up in the captures (most recent wins). -/
def rxGroup (m : RxMatch) (g : Nat) : Option String :=
  if g = 0 then
    some (String.mk ((m.chars.drop m.start).take (m.stop - m.start)))
  else
    match m.caps.find? (fun t => t.1 = g) with
    | some (_, st, sp) => some (String.mk ((m.chars.drop st).take (sp - st)))
    | Option.none => Option.none

/-! Combinator shorthands for transcribing the `re.compile` strings. -/

/-- Sequence of literal chars. -/
def rlit (s : String) : Rx := s.data.foldr (fun c acc => .seq (.ch c) acc) .eps

/-- Sequence of regexes. -/
def rseq (l : List Rx) : Rx := l.foldr .seq .eps

/-- Alternation, left branch first. -/
def ralt (l : List Rx) : Rx :=
  match l with
  | [] => .eps
  | [x] => x
  | x :: rest => .alt x (ralt rest)

/-- Greedy `*`. -/
def rstar (r : Rx) : Rx := .rep 0 Option.none false r

/-- Greedy `+`. -/
def rplus (r : Rx) : Rx := .rep 1 Option.none false r

/-- Greedy `?`. -/
def ropt (r : Rx) : Rx := .rep 0 (some 1) false r

/-- Positive character class. -/
def rcls (items : List RxCls) : Rx := .cls false items

/-- Negated character class. -/
def rncls (items : List RxCls) : Rx := .cls true items

/-- Lazy `.*?`. -/
def rlazydotstar : Rx := .rep 0 Option.none true .dot

/-- Shorthand for the class fragment A-Za-z. -/
def rAZaz : List RxCls := [.rng 'A' 'Z', .rng 'a' 'z']

/-- Shorthand for the class fragment A-Za-z0-9. -/
def rAZaz09 : List RxCls := [.rng 'A' 'Z', .rng 'a' 'z', .rng '0' '9']

/-- Transcription of the fragment `[:\s]*`. -/
def rcolsp : Rx := rstar (rcls [.one ':', .space])

/-- Transcription of the fragment `\s+`. -/
def rsp1 : Rx := rplus (rcls [.space])

/-- Transcription of the fragment `\s*`. -/
def rsp0 : Rx := rstar (rcls [.space])

/-! ### Data model: document sections (`src/schemas/base.py`) -/

/-- The closed enumeration `DocumentSection`. -/
inductive DocumentSection where
  | trust_registration
  | donor_details
  | trustee_details
  | beneficiary_details
  | nominated_bank_account
  | security_information
  | data_privacy_statement
  deriving DecidableEq, Repr

/-- `DocumentSection.<NAME>.value`. -/
def DocumentSection.value : DocumentSection → String
  | .trust_registration => "trust_registration"
  | .donor_details => "donor_details"
  | .trustee_details => "trustee_details"
  | .beneficiary_details => "beneficiary_details"
  | .nominated_bank_account => "nominated_bank_account"
  | .security_information => "security_information"
  | .data_privacy_statement => "data_privacy_statement"

/-- Iteration order of `for section in DocumentSection` (declaration order). -/
def allSections : List DocumentSection :=
  [.trust_registration, .donor_details, .trustee_details, .beneficiary_details,
   .nominated_bank_account, .security_information, .data_privacy_statement]

/-! ### Pattern tables (`RegexExtractor._configure_patterns`)

Each field maps to a prioritized list of (regex, capture-group index)
pairs; every `re.compile` in the source carries `re.IGNORECASE`, handled
by running the engine with `ci = true`.  The original pattern string is
given in a comment above each transcription. -/

/-- One configured pattern: compiled regex plus capture-group index. -/
abbrev RxPat := Rx × Nat

-- URN[=:\s-]*([A-Za-z0-9-]+)
def patUrn1 : RxPat :=
  (rseq [rlit "URN", rstar (rcls [.one '=', .one ':', .space, .one '-']),
    .grp 1 (rplus (rcls (rAZaz09 ++ [.one '-'])))], 1)

-- HMRC\s+unique\s+reference\s+(?:number|URN)[=:\s-]*([A-Za-z0-9-]+)
def patUrn2 : RxPat :=
  (rseq [rlit "HMRC", rsp1, rlit "unique", rsp1, rlit "reference", rsp1,
    ralt [rlit "number", rlit "URN"],
    rstar (rcls [.one '=', .one ':', .space, .one '-']),
    .grp 1 (rplus (rcls (rAZaz09 ++ [.one '-'])))], 1)

-- (?:reference|URN)[=:\s-]*([A-Za-z0-9-]+)
def patUrn3 : RxPat :=
  (rseq [ralt [rlit "reference", rlit "URN"],
    rstar (rcls [.one '=', .one ':', .space, .one '-']),
    .grp 1 (rplus (rcls (rAZaz09 ++ [.one '-'])))], 1)

-- proof\s+of\s+registration\s+(?:is\s+)?attached
def patProof1 : RxPat :=
  (rseq [rlit "proof", rsp1, rlit "of", rsp1, rlit "registration", rsp1,
    ropt (rseq [rlit "is", rsp1]), rlit "attached"], 0)

-- attached\s+proof\s+of\s+registration
def patProof2 : RxPat :=
  (rseq [rlit "attached", rsp1, rlit "proof", rsp1, rlit "of", rsp1,
    rlit "registration"], 0)

-- (?:have|has)\s+(?:included|attached)\s+(?:the\s+)?proof
def patProof3 : RxPat :=
  (rseq [ralt [rlit "have", rlit "has"], rsp1,
    ralt [rlit "included", rlit "attached"], rsp1,
    ropt (rseq [rlit "the", rsp1]), rlit "proof"], 0)

/-- Table for `DocumentSection.TRUST_REGISTRATION`. -/
def trustRegistrationTable : List (String × List RxPat) :=
  [("HMRC_unique_reference_number", [patUrn1, patUrn2, patUrn3]),
   ("proof_of_registration_attached", [patProof1, patProof2, patProof3])]

-- Title[:\s]*([A-Za-z]+\.*(?:\s*/\s*[A-Za-z]+\.*)*)
def patTitle : RxPat :=
  (rseq [rlit "Title", rcolsp,
    .grp 1 (rseq [rplus (rcls rAZaz), rstar (.ch '.'),
      rstar (rseq [rsp0, .ch '/', rsp0, rplus (rcls rAZaz), rstar (.ch '.')])])], 1)

-- Surname[:\s]*([A-Za-z-]+)
def patSurname : RxPat :=
  (rseq [rlit "Surname", rcolsp, .grp 1 (rplus (rcls (rAZaz ++ [.one '-'])))], 1)

-- Forename(?:\(s\))?[:\s]*([A-Za-z\s-]+)
def patForenames : RxPat :=
  (rseq [rlit "Forename", ropt (rlit "(s)"), rcolsp,
    .grp 1 (rplus (rcls (rAZaz ++ [.space, .one '-'])))], 1)

-- Date\s+of\s+birth[:\s]*(\d{1,2}[\/-]\d{1,2}[\/-]\d{2,4})
def patDob1 : RxPat :=
  (rseq [rlit "Date", rsp1, rlit "of", rsp1, rlit "birth", rcolsp,
    .grp 1 (rseq [.rep 1 (some 2) false (rcls [.digit]), rcls [.one '/', .one '-'],
      .rep 1 (some 2) false (rcls [.digit]), rcls [.one '/', .one '-'],
      .rep 2 (some 4) false (rcls [.digit])])], 1)

-- DOB[:\s]*(\d{1,2}[\/-]\d{1,2}[\/-]\d{2,4})
def patDob2 : RxPat :=
  (rseq [rlit "DOB", rcolsp,
    .grp 1 (rseq [.rep 1 (some 2) false (rcls [.digit]), rcls [.one '/', .one '-'],
      .rep 1 (some 2) false (rcls [.digit]), rcls [.one '/', .one '-'],
      .rep 2 (some 4) false (rcls [.digit])])], 1)

-- National\s+[Ii]nsurance\s+[Nn]umber[:\s]*([A-Za-z0-9\s]+)
def patNi1 : RxPat :=
  (rseq [rlit "National", rsp1, rcls [.one 'I', .one 'i'], rlit "nsurance", rsp1,
    rcls [.one 'N', .one 'n'], rlit "umber", rcolsp,
    .grp 1 (rplus (rcls (rAZaz09 ++ [.space])))], 1)

-- NI(?:NO)?[:\s]*([A-Za-z0-9\s]+)
def patNi2 : RxPat :=
  (rseq [rlit "NI", ropt (rlit "NO"), rcolsp,
    .grp 1 (rplus (rcls (rAZaz09 ++ [.space])))], 1)

-- (?:Permanent\s+)?[Rr]esidential\s+[Aa]ddress[:\s]*([A-Za-z0-9\s,.-]+)
def patAddress : RxPat :=
  (rseq [ropt (rseq [rlit "Permanent", rsp1]),
    rcls [.one 'R', .one 'r'], rlit "esidential", rsp1,
    rcls [.one 'A', .one 'a'], rlit "ddress", rcolsp,
    .grp 1 (rplus (rcls (rAZaz09 ++ [.space, .one ',', .one '.', .one '-'])))], 1)

-- [Pp]ostcode[:\s]*([A-Za-z0-9\s]+)
def patPostcode : RxPat :=
  (rseq [rcls [.one 'P', .one 'p'], rlit "ostcode", rcolsp,
    .grp 1 (rplus (rcls (rAZaz09 ++ [.space])))], 1)

-- [Cc]ountry\s+of\s+[Rr]esidence[:\s]*([A-Za-z\s]+)
def patCountryOfResidence : RxPat :=
  (rseq [rcls [.one 'C', .one 'c'], rlit "ountry", rsp1, rlit "of", rsp1,
    rcls [.one 'R', .one 'r'], rlit "esidence", rcolsp,
    .grp 1 (rplus (rcls (rAZaz ++ [.space])))], 1)

-- [Cc]ountry\s+of\s+[Nn]ationality[:\s]*([A-Za-z\s]+)
def patCountryOfNationality : RxPat :=
  (rseq [rcls [.one 'C', .one 'c'], rlit "ountry", rsp1, rlit "of", rsp1,
    rcls [.one 'N', .one 'n'], rlit "ationality", rcolsp,
    .grp 1 (rplus (rcls (rAZaz ++ [.space])))], 1)

-- donor\s+has\s+passed\s+away
def patDeceased1 : RxPat :=
  (rseq [rlit "donor", rsp1, rlit "has", rsp1, rlit "passed", rsp1, rlit "away"], 0)

-- deceased
def patDeceased2 : RxPat := (rlit "deceased", 0)

/-- Table for `DocumentSection.DONOR_DETAILS`. -/
def donorDetailsTable : List (String × List RxPat) :=
  [("title", [patTitle]),
   ("surname", [patSurname]),
   ("forenames", [patForenames]),
   ("date_of_birth", [patDob1, patDob2]),
   ("national_insurance_number", [patNi1, patNi2]),
   ("permanent_residential_address", [patAddress]),
   ("postcode", [patPostcode]),
   ("country_of_residence", [patCountryOfResidence]),
   ("country_of_nationality", [patCountryOfNationality]),
   ("deceased", [patDeceased1, patDeceased2])]

-- ^Country[:\s]*([A-Za-z\s]+)
def patCountryAnchored : RxPat :=
  (rseq [.bol, rlit "Country", rcolsp, .grp 1 (rplus (rcls (rAZaz ++ [.space])))], 1)

-- (?:[Dd]aytime\s+)?[Tt]elephone\s+[Nn]umber[:\s]*([0-9\s]+)
def patTelephone : RxPat :=
  (rseq [ropt (rseq [rcls [.one 'D', .one 'd'], rlit "aytime", rsp1]),
    rcls [.one 'T', .one 't'], rlit "elephone", rsp1,
    rcls [.one 'N', .one 'n'], rlit "umber", rcolsp,
    .grp 1 (rplus (rcls [.rng '0' '9', .space]))], 1)

-- [Ee]mail\s+[Aa]ddress[:\s]*([A-Za-z0-9._%+-]+@[A-Za-z0-9.-]+\.[A-Za-z]{2,})
def patEmail : RxPat :=
  (rseq [rcls [.one 'E', .one 'e'], rlit "mail", rsp1,
    rcls [.one 'A', .one 'a'], rlit "ddress", rcolsp,
    .grp 1 (rseq [
      rplus (rcls (rAZaz09 ++ [.one '.', .one '_', .one '%', .one '+', .one '-'])),
      .ch '@',
      rplus (rcls (rAZaz09 ++ [.one '.', .one '-'])),
      .ch '.',
      .rep 2 Option.none false (rcls rAZaz)])], 1)

-- existing\s+AJ\s+Bell\s+Account\?[:\s]*Yes
def patExistingAccount : RxPat :=
  (rseq [rlit "existing", rsp1, rlit "AJ", rsp1, rlit "Bell", rsp1,
    rlit "Account", .ch '?', rcolsp, rlit "Yes"], 0)

-- existing\s+account\s+number[:\s]*([A-Za-z0-9\s]+)
def patExistingAccountNumber : RxPat :=
  (rseq [rlit "existing", rsp1, rlit "account", rsp1, rlit "number", rcolsp,
    .grp 1 (rplus (rcls (rAZaz09 ++ [.space])))], 1)

-- born\s+in\s+the\s+UK\?.*Yes
def patBornInUk : RxPat :=
  (rseq [rlit "born", rsp1, rlit "in", rsp1, rlit "the", rsp1, rlit "UK", .ch '?',
    rstar .dot, rlit "Yes"], 0)

-- solely\s+a\s+UK\s+citizen.*Yes
def patSolelyUkCitizen : RxPat :=
  (rseq [rlit "solely", rsp1, rlit "a", rsp1, rlit "UK", rsp1, rlit "citizen",
    rstar .dot, rlit "Yes"], 0)

-- Country\s+of\s+birth[:\s]*([A-Za-z\s]+)
def patCountryOfBirth : RxPat :=
  (rseq [rlit "Country", rsp1, rlit "of", rsp1, rlit "birth", rcolsp,
    .grp 1 (rplus (rcls (rAZaz ++ [.space])))], 1)

-- Nationality[:\s]*([A-Za-z\s]+)
def patNationality : RxPat :=
  (rseq [rlit "Nationality", rcolsp, .grp 1 (rplus (rcls (rAZaz ++ [.space])))], 1)

-- Identification\s+number[:\s]*([A-Za-z0-9\s-]+)
def patIdNumber : RxPat :=
  (rseq [rlit "Identification", rsp1, rlit "number", rcolsp,
    .grp 1 (rplus (rcls (rAZaz09 ++ [.space, .one '-'])))], 1)

-- Type\s+of\s+number[:\s]*([A-Za-z\s]+)
def patTypeOfNumber : RxPat :=
  (rseq [rlit "Type", rsp1, rlit "of", rsp1, rlit "number", rcolsp,
    .grp 1 (rplus (rcls (rAZaz ++ [.space])))], 1)

-- Passport\s+number[:\s]*([A-Za-z0-9\s-]+)
def patPassportNumber : RxPat :=
  (rseq [rlit "Passport", rsp1, rlit "number", rcolsp,
    .grp 1 (rplus (rcls (rAZaz09 ++ [.space, .one '-'])))], 1)

-- Country\s+of\s+residence\s+for\s+tax\s+purposes[:\s]*([A-Za-z\s]+)
def patPrimaryResidence : RxPat :=
  (rseq [rlit "Country", rsp1, rlit "of", rsp1, rlit "residence", rsp1,
    rlit "for", rsp1, rlit "tax", rsp1, rlit "purposes", rcolsp,
    .grp 1 (rplus (rcls (rAZaz ++ [.space])))], 1)

-- Second\s+country\s+of\s+residence\s+for\s+tax\s+purposes[:\s]*([A-Za-z\s]+)
def patSecondaryResidence : RxPat :=
  (rseq [rlit "Second", rsp1, rlit "country", rsp1, rlit "of", rsp1,
    rlit "residence", rsp1, rlit "for", rsp1, rlit "tax", rsp1,
    rlit "purposes", rcolsp, .grp 1 (rplus (rcls (rAZaz ++ [.space])))], 1)

-- Country\s+of\s+citizenship[:\s]*([A-Za-z\s]+)
def patPrimaryCitizenship : RxPat :=
  (rseq [rlit "Country", rsp1, rlit "of", rsp1, rlit "citizenship", rcolsp,
    .grp 1 (rplus (rcls (rAZaz ++ [.space])))], 1)

-- Second\s+country\s+of\s+citizenship[:\s]*([A-Za-z\s]+)
def patSecondaryCitizenship : RxPat :=
  (rseq [rlit "Second", rsp1, rlit "country", rsp1, rlit "of", rsp1,
    rlit "citizenship", rcolsp, .grp 1 (rplus (rcls (rAZaz ++ [.space])))], 1)

/-- Table for `DocumentSection.TRUSTEE_DETAILS`. -/
def trusteeDetailsTable : List (String × List RxPat) :=
  [("title", [patTitle]),
   ("surname", [patSurname]),
   ("forenames", [patForenames]),
   ("date_of_birth", [patDob1, patDob2]),
   ("national_insurance_number", [patNi1, patNi2]),
   ("permanent_residential_address", [patAddress]),
   ("postcode", [patPostcode]),
   ("country", [patCountryAnchored]),
   ("telephone_number", [patTelephone]),
   ("email_address", [patEmail]),
   ("existing_aj_bell_account", [patExistingAccount]),
   ("existing_account_number", [patExistingAccountNumber]),
   ("born_in_uk", [patBornInUk]),
   ("solely_uk_citizen", [patSolelyUkCitizen]),
   ("country_of_birth", [patCountryOfBirth]),
   ("nationality", [patNationality]),
   ("id_number", [patIdNumber]),
   ("type_of_number", [patTypeOfNumber]),
   ("passport_number", [patPassportNumber]),
   ("primary_residence", [patPrimaryResidence]),
   ("secondary_residence", [patSecondaryResidence]),
   ("primary_citizenship", [patPrimaryCitizenship]),
   ("secondary_citizenship", [patSecondaryCitizenship])]

-- Title[:\s]*(Dr|Mr|Mrs|Miss|Ms|Other)
def patTitleB1 : RxPat :=
  (rseq [rlit "Title", rcolsp,
    .grp 1 (ralt [rlit "Dr", rlit "Mr", rlit "Mrs", rlit "Miss", rlit "Ms",
      rlit "Other"])], 1)

-- (?:Dr|Mr|Mrs|Miss|Ms)(?:/(?:Dr|Mr|Mrs|Miss|Ms))*
def patTitleB2 : RxPat :=
  (rseq [ralt [rlit "Dr", rlit "Mr", rlit "Mrs", rlit "Miss", rlit "Ms"],
    rstar (rseq [.ch '/',
      ralt [rlit "Dr", rlit "Mr", rlit "Mrs", rlit "Miss", rlit "Ms"]])], 0)

-- Surname[:\s]*([A-Za-z\s.-]+)
def patSurnameB1 : RxPat :=
  (rseq [rlit "Surname", rcolsp,
    .grp 1 (rplus (rcls (rAZaz ++ [.space, .one '.', .one '-'])))], 1)

-- Last\s+name[:\s]*([A-Za-z\s.-]+)
def patSurnameB2 : RxPat :=
  (rseq [rlit "Last", rsp1, rlit "name", rcolsp,
    .grp 1 (rplus (rcls (rAZaz ++ [.space, .one '.', .one '-'])))], 1)

-- Forename\(s\)[:\s]*([A-Za-z\s.-]+)
def patForenamesB1 : RxPat :=
  (rseq [rlit "Forename(s)", rcolsp,
    .grp 1 (rplus (rcls (rAZaz ++ [.space, .one '.', .one '-'])))], 1)

-- First\s+name[:\s]*([A-Za-z\s.-]+)
def patForenamesB2 : RxPat :=
  (rseq [rlit "First", rsp1, rlit "name", rcolsp,
    .grp 1 (rplus (rcls (rAZaz ++ [.space, .one '.', .one '-'])))], 1)

-- National\s+Insurance\s+number[:\s]*([A-Z0-9\s]+)
def patNiB1 : RxPat :=
  (rseq [rlit "National", rsp1, rlit "Insurance", rsp1, rlit "number", rcolsp,
    .grp 1 (rplus (rcls [.rng 'A' 'Z', .rng '0' '9', .space]))], 1)

-- NI\s+number[:\s]*([A-Z0-9\s]+)
def patNiB2 : RxPat :=
  (rseq [rlit "NI", rsp1, rlit "number", rcolsp,
    .grp 1 (rplus (rcls [.rng 'A' 'Z', .rng '0' '9', .space]))], 1)

-- Permanent\s+residential\s+address[:\s]*([A-Za-z0-9\s,.-]+)
def patAddressB1 : RxPat :=
  (rseq [rlit "Permanent", rsp1, rlit "residential", rsp1, rlit "address", rcolsp,
    .grp 1 (rplus (rcls (rAZaz09 ++ [.space, .one ',', .one '.', .one '-'])))], 1)

-- Address[:\s]*([A-Za-z0-9\s,.-]+)
def patAddressB2 : RxPat :=
  (rseq [rlit "Address", rcolsp,
    .grp 1 (rplus (rcls (rAZaz09 ++ [.space, .one ',', .one '.', .one '-'])))], 1)

-- Postcode[:\s]*([A-Z0-9\s]+)
def patPostcodeB : RxPat :=
  (rseq [rlit "Postcode", rcolsp,
    .grp 1 (rplus (rcls [.rng 'A' 'Z', .rng '0' '9', .space]))], 1)

-- Country[:\s]*([A-Za-z\s]+)
def patCountryB : RxPat :=
  (rseq [rlit "Country", rcolsp, .grp 1 (rplus (rcls (rAZaz ++ [.space])))], 1)

-- (?:Daytime\s+)?[Tt]elephone\s+number[:\s]*([0-9+\s]+)
def patTelephoneB1 : RxPat :=
  (rseq [ropt (rseq [rlit "Daytime", rsp1]),
    rcls [.one 'T', .one 't'], rlit "elephone", rsp1, rlit "number", rcolsp,
    .grp 1 (rplus (rcls [.rng '0' '9', .one '+', .space]))], 1)

-- Phone[:\s]*([0-9+\s]+)
def patTelephoneB2 : RxPat :=
  (rseq [rlit "Phone", rcolsp,
    .grp 1 (rplus (rcls [.rng '0' '9', .one '+', .space]))], 1)

-- Email\s+address[:\s]*([A-Za-z0-9@._-]+)
def patEmailB1 : RxPat :=
  (rseq [rlit "Email", rsp1, rlit "address", rcolsp,
    .grp 1 (rplus (rcls (rAZaz09 ++ [.one '@', .one '.', .one '_', .one '-'])))], 1)

-- Email[:\s]*([A-Za-z0-9@._-]+)
def patEmailB2 : RxPat :=
  (rseq [rlit "Email", rcolsp,
    .grp 1 (rplus (rcls (rAZaz09 ++ [.one '@', .one '.', .one '_', .one '-'])))], 1)

/-- Table for `DocumentSection.BENEFICIARY_DETAILS`. -/
def beneficiaryDetailsTable : List (String × List RxPat) :=
  [("title", [patTitleB1, patTitleB2]),
   ("surname", [patSurnameB1, patSurnameB2]),
   ("forenames", [patForenamesB1, patForenamesB2]),
   ("date_of_birth", [patDob1, patDob2]),
   ("national_insurance_number", [patNiB1, patNiB2]),
   ("permanent_residential_address", [patAddressB1, patAddressB2]),
   ("postcode", [patPostcodeB]),
   ("country", [patCountryB]),
   ("telephone_number", [patTelephoneB1, patTelephoneB2]),
   ("email_address", [patEmailB1, patEmailB2]),
   ("born_in_uk", [patBornInUk]),
   ("solely_uk_citizen", [patSolelyUkCitizen]),
   ("country_of_birth", [patCountryOfBirth]),
   ("nationality", [patNationality]),
   ("primary_residence", [patPrimaryResidence]),
   ("secondary_residence", [patSecondaryResidence]),
   ("primary_citizenship", [patPrimaryCitizenship]),
   ("secondary_citizenship", [patSecondaryCitizenship])]

-- Account\s+holder(?:\'s)?\s+name[:\s]*([A-Za-z\s.-]+)
def patAccountHolder1 : RxPat :=
  (rseq [rlit "Account", rsp1, rlit "holder",
    ropt (rseq [.ch '\x27', .ch 's']), rsp1, rlit "name", rcolsp,
    .grp 1 (rplus (rcls (rAZaz ++ [.space, .one '.', .one '-'])))], 1)

-- Name\s+of\s+account\s+holder[:\s]*([A-Za-z\s.-]+)
def patAccountHolder2 : RxPat :=
  (rseq [rlit "Name", rsp1, rlit "of", rsp1, rlit "account", rsp1,
    rlit "holder", rcolsp,
    .grp 1 (rplus (rcls (rAZaz ++ [.space, .one '.', .one '-'])))], 1)

-- (?:Bank|Building\s+society)\s+account\s+number[:\s]*([0-9\s]+)
def patAccountNumber1 : RxPat :=
  (rseq [ralt [rlit "Bank", rseq [rlit "Building", rsp1, rlit "society"]],
    rsp1, rlit "account", rsp1, rlit "number", rcolsp,
    .grp 1 (rplus (rcls [.rng '0' '9', .space]))], 1)

-- Account\s+number[:\s]*([0-9\s]+)
def patAccountNumber2 : RxPat :=
  (rseq [rlit "Account", rsp1, rlit "number", rcolsp,
    .grp 1 (rplus (rcls [.rng '0' '9', .space]))], 1)

-- Sort\s+code[:\s]*([0-9-\s]+)
def patSortCode : RxPat :=
  (rseq [rlit "Sort", rsp1, rlit "code", rcolsp,
    .grp 1 (rplus (rcls [.rng '0' '9', .one '-', .space]))], 1)

/-- Table for `DocumentSection.NOMINATED_BANK_ACCOUNT`. -/
def nominatedBankAccountTable : List (String × List RxPat) :=
  [("account_holder_name", [patAccountHolder1, patAccountHolder2]),
   ("account_number", [patAccountNumber1, patAccountNumber2]),
   ("sort_code", [patSortCode])]

-- Username[:\s]*([A-Za-z0-9\s]+)
def patUsername1 : RxPat :=
  (rseq [rlit "Username", rcolsp,
    .grp 1 (rplus (rcls (rAZaz09 ++ [.space])))], 1)

-- Create\s+(?:the\s+)?username[^:]*?[:\s]*([A-Za-z0-9\s]+)
def patUsername2 : RxPat :=
  (rseq [rlit "Create", rsp1, ropt (rseq [rlit "the", rsp1]), rlit "username",
    .rep 0 Option.none true (rncls [.one ':']), rcolsp,
    .grp 1 (rplus (rcls (rAZaz09 ++ [.space])))], 1)

-- mother(?:\'s)?\s+maiden\s+name[:\s]*([A-Za-z\s.-]+)
def patMotherMaidenName : RxPat :=
  (rseq [rlit "mother", ropt (rseq [.ch '\x27', .ch 's']), rsp1,
    rlit "maiden", rsp1, rlit "name", rcolsp,
    .grp 1 (rplus (rcls (rAZaz ++ [.space, .one '.', .one '-'])))], 1)

-- (?:name\s+of\s+(?:your\s+)?first\s+school|first\s+school\s+name)[:\s]*([A-Za-z0-9\s,.-]+)
def patFirstSchoolName : RxPat :=
  (rseq [ralt [
      rseq [rlit "name", rsp1, rlit "of", rsp1, ropt (rseq [rlit "your", rsp1]),
        rlit "first", rsp1, rlit "school"],
      rseq [rlit "first", rsp1, rlit "school", rsp1, rlit "name"]],
    rcolsp,
    .grp 1 (rplus (rcls (rAZaz09 ++ [.space, .one ',', .one '.', .one '-'])))], 1)

/-- Table for `DocumentSection.SECURITY_INFORMATION`. -/
def securityInformationTable : List (String × List RxPat) :=
  [("username", [patUsername1, patUsername2]),
   ("mother_maiden_name", [patMotherMaidenName]),
   ("first_school_name", [patFirstSchoolName])]

-- identity\s+verification.*?Yes   /   identity\s+verification.*?No
def patIdentityYes : RxPat :=
  (rseq [rlit "identity", rsp1, rlit "verification", rlazydotstar, rlit "Yes"], 0)

def patIdentityNo : RxPat :=
  (rseq [rlit "identity", rsp1, rlit "verification", rlazydotstar, rlit "No"], 0)

-- fraud\s+prevention.*?Yes   /   fraud\s+prevention.*?No
def patFraudYes : RxPat :=
  (rseq [rlit "fraud", rsp1, rlit "prevention", rlazydotstar, rlit "Yes"], 0)

def patFraudNo : RxPat :=
  (rseq [rlit "fraud", rsp1, rlit "prevention", rlazydotstar, rlit "No"], 0)

-- would\s+like\s+to\s+receive\s+communications.*?Yes   /   ...No
def patCommsYes : RxPat :=
  (rseq [rlit "would", rsp1, rlit "like", rsp1, rlit "to", rsp1, rlit "receive",
    rsp1, rlit "communications", rlazydotstar, rlit "Yes"], 0)

def patCommsNo : RxPat :=
  (rseq [rlit "would", rsp1, rlit "like", rsp1, rlit "to", rsp1, rlit "receive",
    rsp1, rlit "communications", rlazydotstar, rlit "No"], 0)

-- Trustee\s+N.*?Name[:\s]*([A-Za-z\s.-]+)
def patTrusteeName (n : String) : RxPat :=
  (rseq [rlit "Trustee", rsp1, rlit n, rlazydotstar, rlit "Name", rcolsp,
    .grp 1 (rplus (rcls (rAZaz ++ [.space, .one '.', .one '-'])))], 1)

-- Trustee\s+N.*?Date[:\s]*(\d{1,2}[/.-]\d{1,2}[/.-]\d{2,4})
def patTrusteeDate (n : String) : RxPat :=
  (rseq [rlit "Trustee", rsp1, rlit n, rlazydotstar, rlit "Date", rcolsp,
    .grp 1 (rseq [.rep 1 (some 2) false (rcls [.digit]),
      rcls [.one '/', .one '.', .one '-'],
      .rep 1 (some 2) false (rcls [.digit]),
      rcls [.one '/', .one '.', .one '-'],
      .rep 2 (some 4) false (rcls [.digit])])], 1)

-- Trustee\s+N.*?Signature
def patTrusteeSig (n : String) : RxPat :=
  (rseq [rlit "Trustee", rsp1, rlit n, rlazydotstar, rlit "Signature"], 0)

/-- Table for `DocumentSection.DATA_PRIVACY_STATEMENT`. -/
def dataPrivacyStatementTable : List (String × List RxPat) :=
  [("identity_verification_consent", [patIdentityYes, patIdentityNo]),
   ("fraud_prevention_checks_consent", [patFraudYes, patFraudNo]),
   ("communication_preference_consent", [patCommsYes, patCommsNo]),
   ("trustee1_name", [patTrusteeName "1"]),
   ("trustee1_date", [patTrusteeDate "1"]),
   ("trustee1_signature", [patTrusteeSig "1"]),
   ("trustee2_name", [patTrusteeName "2"]),
   ("trustee2_date", [patTrusteeDate "2"]),
   ("trustee2_signature", [patTrusteeSig "2"])]

/-- `RegexExtractor._configure_patterns`, by section (else branch empty). -/
def configurePatterns : DocumentSection → List (String × List RxPat)
  | .trust_registration => trustRegistrationTable
  | .donor_details => donorDetailsTable
  | .trustee_details => trusteeDetailsTable
  | .beneficiary_details => beneficiaryDetailsTable
  | .nominated_bank_account => nominatedBankAccountTable
  | .security_information => securityInformationTable
  | .data_privacy_statement => dataPrivacyStatementTable

/-! ### `RegexExtractor.extract` -/

/-- Inner loop of `RegexExtractor.extract`: try patterns in declared
order, first match wins.  (No configured tuple carries a transform
function, so the `len(pattern_tuple) >= 3` branch is dead for every
table and the tuples are plain pairs.) -/
def firstRxHit (pats : List RxPat) (text : String) : Option (RxMatch × Nat) :=
  match pats with
  | [] => Option.none
  | (rx, g) :: rest =>
      match rxSearch true rx text with
      | some m => some (m, g)
      | Option.none => firstRxHit rest text

/-- The per-field default applied when no pattern matched
(`if field not in result:` branch of `RegexExtractor.extract`). -/
def regexDefault (field : String) : PyVal :=
  if field = "proof_of_registration_attached" ∨ field = "deceased" ∨
      field = "born_in_uk" then
    .bool false
  else if field = "not_born_in_uk" ∨ field = "security_questions" then
    .none
  else
    .str ""

/-- Value computed for one field by `RegexExtractor.extract`: group 0
means boolean presence (`True`); a positive group extracts and strips
that capturing group; otherwise the default. -/
def regexFieldValue (field : String) (pats : List RxPat) (text : String) : PyVal :=
  match firstRxHit pats text with
  | some (m, g) =>
      if g = 0 then .bool true else .str (pyStrip ((rxGroup m g).getD ""))
  | Option.none => regexDefault field

/-- `RegexExtractor.extract` for a section: one dict entry per
configured field, in table order. -/
def regexExtract (sec : DocumentSection) (text : String) : PyDict :=
  (configurePatterns sec).foldl
    (fun acc fp => pySet acc fp.1 (regexFieldValue fp.1 fp.2 text)) []

/-! ### Shared normalization helpers -/

/-- Extract the `str` payload; any other value raises `TypeError` when a
string method is invoked on it. -/
def expectStr : PyVal → Except String String
  | .str s => .ok s
  | _ => .error "TypeError"

/-- `re.sub(r'[-.]', '/', s)`. -/
def pyRepDashDot (s : String) : String :=
  String.mk (s.data.map (fun c => if c = '-' ∨ c = '.' then '/' else c))

/-- `re.sub(r'[-\s]', '', s)`. -/
def pySubDashSpace (s : String) : String :=
  String.mk (s.data.filter (fun c => !(c = '-' || pyIsSpace c)))

/-- `re.sub(r'[^0-9]', '', s)`. -/
def pyKeepDigits (s : String) : String :=
  String.mk (s.data.filter Char.isDigit)

/-- Char is in A-Z. -/
def isUpperAZ (c : Char) : Bool := 'A' ≤ c && c ≤ 'Z'

/-- Body of `^[A-Z]{2}\d{6}[A-Z]$` on a char list. -/
def niCore9 : List Char → Bool
  | [a, b, d1, d2, d3, d4, d5, d6, e] =>
      isUpperAZ a && isUpperAZ b && d1.isDigit && d2.isDigit && d3.isDigit &&
        d4.isDigit && d5.isDigit && d6.isDigit && isUpperAZ e
  | _ => false

/-- Body of `^[A-Z]{2}\d{6}$` on a char list. -/
def niCore8 : List Char → Bool
  | [a, b, d1, d2, d3, d4, d5, d6] =>
      isUpperAZ a && isUpperAZ b && d1.isDigit && d2.isDigit && d3.isDigit &&
        d4.isDigit && d5.isDigit && d6.isDigit
  | _ => false

/-- `re.match` of a fully anchored `^...$` pattern (`$` also matches
just before one trailing newline). -/
def reMatchAnchored (core : List Char → Bool) (s : String) : Bool :=
  core s.data ||
    (match s.data.getLast? with
     | some c => c = '\n' && core s.data.dropLast
     | Option.none => false)

/-- `_clean_date_of_birth` (identical bodies in `donor_extractor.py`,
`trustee_extractor.py`, `beneficiary_extractor.py`): unify `-`/`.`
separators to `/`; when the value splits into exactly three parts,
rewrite it, expanding a 2-char year via `int(year)` with the pivot at
50; `int` raises `ValueError` on non-numeric input. -/
def cleanDateOfBirth (d : PyDict) : Except String PyDict :=
  if !pyGetTruthy d "date_of_birth" then .ok d
  else
    match pyGet d "date_of_birth" with
    | some (.str dob0) =>
        let dob := pyRepDashDot dob0
        match pySplitSlash dob with
        | [day, month, year] =>
            if year.length = 2 then
              match pyInt? year with
              | some yn =>
                  let year2 := if yn ≥ 50 then "19" ++ year else "20" ++ year
                  .ok (pySet d "date_of_birth"
                    (.str (day ++ "/" ++ month ++ "/" ++ year2)))
              | Option.none => .error "ValueError"
            else
              .ok (pySet d "date_of_birth"
                (.str (day ++ "/" ++ month ++ "/" ++ year)))
        | _ => .ok d
    | _ => .error "TypeError"

/-- `_clean_national_insurance_number` as written in
`donor_extractor.py` and `trustee_extractor.py`: remove spaces,
uppercase; keep as-is when one of the two anchored formats matches,
else strip `-` and whitespace. -/
def cleanNINumberTD (d : PyDict) : Except String PyDict :=
  if !pyGetTruthy d "national_insurance_number" then .ok d
  else
    match pyGet d "national_insurance_number" with
    | some (.str s) =>
        let n1 := pyUpper (pyDropSpaces s)
        let n2 :=
          if reMatchAnchored niCore9 n1 then n1
          else if reMatchAnchored niCore8 n1 then n1
          else pySubDashSpace n1
        .ok (pySet d "national_insurance_number" (.str n2))
    | _ => .error "TypeError"

/-- `_clean_national_insurance_number` as written in
`beneficiary_extractor.py`: additionally collapses a whitespace-only
value to `None` before the format checks. -/
def cleanNINumberBenef (d : PyDict) : Except String PyDict :=
  if !pyGetTruthy d "national_insurance_number" then .ok d
  else
    match pyGet d "national_insurance_number" with
    | some (.str s) =>
        if s = "" ∨ pyStrip s = "" then
          .ok (pySet d "national_insurance_number" .none)
        else
          let n1 := pyUpper (pyDropSpaces s)
          let n2 :=
            if reMatchAnchored niCore9 n1 then n1
            else if reMatchAnchored niCore8 n1 then n1
            else pySubDashSpace n1
          .ok (pySet d "national_insurance_number" (.str n2))
    | _ => .error "TypeError"

/-- `_clean_address_fields` (identical in donor, trustee, beneficiary):
trim/uppercase the postcode, then strip a trailing postcode occurrence
from the trimmed address. -/
def cleanAddressFields (d : PyDict) : Except String PyDict := do
  let d1 ←
    if pyGetTruthy d "postcode" then
      match pyGet d "postcode" with
      | some (.str s) => .ok (pySet d "postcode" (.str (pyUpper (pyStrip s))))
      | _ => .error "TypeError"
    else .ok d
  if pyGetTruthy d1 "permanent_residential_address" then
    match pyGet d1 "permanent_residential_address" with
    | some (.str s) =>
        let address := pyStrip s
        let address2 ←
          if pyGetTruthy d1 "postcode" then
            match pyGet d1 "postcode" with
            | some (.str pc) =>
                if pyEndsWith address pc then
                  .ok (pyStrip (String.mk (address.data.take
                    (address.data.length - pc.data.length))))
                else .ok address
            | _ => .error "TypeError"
          else .ok address
        .ok (pySet d1 "permanent_residential_address" (.str address2))
    | _ => .error "TypeError"
  else
    .ok d1

/-- The truthy token list shared by `trustee_extractor.py` and
`data_privacy_statement_extractor.py`. -/
def truthyTokens : List String :=
  ["yes", "true", "y", "✓", "x", "checked", "ticked"]

/-- The token list in `beneficiary_extractor.py`; the check-mark entry
is the mojibake three-char sequence U+00E2 U+0153 U+201C (the UTF-8
bytes of U+2713 decoded as cp1252), not U+2713 itself. -/
def beneficiaryTokens : List String :=
  ["yes", "true", "y", "âœ“", "x", "checked", "ticked"]

/-- `_clean_boolean_fields`: for each listed field holding a string,
replace it by membership of its lowercased value in the token list. -/
def cleanBooleanFields (fields : List String) (tokens : List String)
    (d : PyDict) : PyDict :=
  fields.foldl
    (fun dd f =>
      match pyGet dd f with
      | some (.str s) => pySet dd f (.bool (decide (pyLower s ∈ tokens)))
      | _ => dd)
    d

/-- Python `dict.update`: existing keys updated in place, new appended. -/
def pyDictUpdate (d : PyDict) (upd : PyDict) : PyDict :=
  upd.foldl (fun acc kv => pySet acc kv.1 kv.2) d

/-- The pop loop shared by the conditional-substructure transforms:
collect the listed dependent fields that are present (in list order)
and remove them from the dict. -/
def popFields (fields : List String) (d : PyDict) : PyDict × PyDict :=
  fields.foldl
    (fun (acc : PyDict × PyDict) f =>
      if pyContains acc.2 f then
        (acc.1 ++ [(f, (pyGet acc.2 f).getD .none)], pyPop acc.2 f)
      else acc)
    ([], d)

/-- `_process_non_uk_details` (trustee and beneficiary bodies are the
same algorithm with different names): when the governing flag `== True`
set the nested key to `None` and return at once; otherwise pop the
dependent fields, merge into an existing nested dict, or create one, or
set `None` when nothing was collected. -/
def processNonUkDetails (flagKey nestedKey : String) (fields : List String)
    (d : PyDict) : PyDict :=
  if pyEqTrue ((pyGet d flagKey).getD .none) then
    pySet d nestedKey .none
  else
    let (collected, d2) := popFields fields d
    match pyGet d2 nestedKey with
    | some (.dict xs) => pySet d2 nestedKey (.dict (pyDictUpdate xs collected))
    | _ =>
        if collected ≠ [] then pySet d2 nestedKey (.dict collected)
        else pySet d2 nestedKey .none

/-- Dependent field list in `trustee_extractor.py`. -/
def trusteeNonUkFields : List String :=
  ["country_of_birth", "nationality", "id_number", "type_of_number",
   "passport_number", "primary_residence", "secondary_residence",
   "primary_citizenship", "secondary_citizenship"]

/-- Dependent field list in `beneficiary_extractor.py` (last two names
differ from the trustee list). -/
def beneficiaryNonUkFields : List String :=
  ["country_of_birth", "nationality", "id_number", "type_of_number",
   "passport_number", "primary_residence", "secondary_residence",
   "country_of_citizenship", "second_country_of_citizenship"]

/-- `TrusteeExtractor._process_non_uk_details`. -/
def trusteeProcessNonUk (d : PyDict) : PyDict :=
  processNonUkDetails "solely_uk_citizen" "not_uk_details" trusteeNonUkFields d

/-- `BeneficiaryExtractor._process_non_uk_details`. -/
def beneficiaryProcessNonUk (d : PyDict) : PyDict :=
  processNonUkDetails "born_in_uk" "not_born_in_uk" beneficiaryNonUkFields d

/-- `LLMExtractor._process_non_uk_details_structure`, applied to the
parsed chain output when the section is trustee details.  It differs
from the trustee post-processor in the no-fields-collected case: `None`
is only written when the existing value is falsy.  A non-dict argument
raises (`AttributeError`), which the caller catches. -/
def processNonUkStructureLLM : PyVal → Except String PyVal
  | .dict d =>
      if pyEqTrue ((pyGet d "solely_uk_citizen").getD .none) then
        .ok (.dict (pySet d "not_uk_details" .none))
      else
        let (collected, d2) := popFields trusteeNonUkFields d
        match pyGet d2 "not_uk_details" with
        | some (.dict xs) =>
            .ok (.dict (pySet d2 "not_uk_details" (.dict (pyDictUpdate xs collected))))
        | _ =>
            if collected ≠ [] then
              .ok (.dict (pySet d2 "not_uk_details" (.dict collected)))
            else if !pyGetTruthy d2 "not_uk_details" then
              .ok (.dict (pySet d2 "not_uk_details" .none))
            else
              .ok (.dict d2)
  | _ => .error "AttributeError"

/-- `DonorExtractor._infer_deceased_status`: default the flag, then OR
in phrase indicators found in the lowercased text, then the literal
checkbox-adjacency substrings (searched in the raw text). -/
def deceasedIndicators : List String :=
  ["has passed away", "deceased donor", "leave the residential address blank",
   "tick here if the donor has passed away"]

/-- Checkbox glyph list from `_infer_deceased_status`. -/
def checkboxIndicators : List String :=
  ["☑", "☒", "[✓]", "(✓)", "✓", "×"]

/-- `DonorExtractor._infer_deceased_status` proper. -/
def inferDeceasedStatus (d : PyDict) (text : String) : PyDict :=
  let d1 := if !pyContains d "deceased" then pySet d "deceased" (.bool false) else d
  let d2 :=
    if deceasedIndicators.any (fun i => pyInStr i (pyLower text)) then
      pySet d1 "deceased" (.bool true)
    else d1
  if deceasedIndicators.any (fun di =>
      checkboxIndicators.any (fun cb =>
        pyInStr (cb ++ ".*" ++ di) text || pyInStr (di ++ ".*" ++ cb) text)) then
    pySet d2 "deceased" (.bool true)
  else d2

/-- `SecurityInformationExtractor._process_security_questions`. -/
def processSecurityQuestions (d : PyDict) : PyDict :=
  let nested := (pyGet d "security_questions").getD .none
  let isDict := match nested with | .dict _ => true | _ => false
  if !pyTruthy nested || !isDict then
    let (collected, d2) := popFields ["mother_maiden_name", "first_school_name"] d
    if collected ≠ [] then pySet d2 "security_questions" (.dict collected)
    else d2
  else d

/-- `NominatedBankAccountExtractor._clean_account_number`. -/
def cleanAccountNumber (d : PyDict) : Except String PyDict :=
  if !pyGetTruthy d "account_number" then .ok d
  else
    match pyGet d "account_number" with
    | some (.str s) => .ok (pySet d "account_number" (.str (pyKeepDigits s)))
    | _ => .error "TypeError"

/-! ### `DataPrivacyStatementExtractor` signature aggregation -/

/-- Association-list lookup for the `trustee_fields` nested dict. -/
def alGet (l : List (String × PyDict)) (k : String) : Option PyDict :=
  (l.find? (fun x => x.1 = k)).map (fun x => x.2)

/-- Association-list update (replace in place or append) for
`trustee_fields`. -/
def alSet (l : List (String × PyDict)) (k : String) (v : PyDict) :
    List (String × PyDict) :=
  match l with
  | [] => [(k, v)]
  | (k2, v2) :: rest =>
      if k2 = k then (k2, v) :: rest else (k2, v2) :: alSet rest k v

-- trustee(\d+)_(\w+)
def trusteeKeyRx : Rx :=
  rseq [rlit "trustee", .grp 1 (rplus (rcls [.digit])), .ch '_',
    .grp 2 (rplus (rcls [.word]))]

/-- `re.match(r'trustee(\d+)_(\w+)', key)` returning the two groups. -/
def trusteeKeyMatch (key : String) : Option (String × String) :=
  match rxMatchStart false trusteeKeyRx key with
  | some m => some ((rxGroup m 1).getD "", (rxGroup m 2).getD "")
  | Option.none => Option.none

/-- Key-scanning loop of
`_process_trustee_signatures_from_flat_structure`: every key matching
the synthetic pattern is popped; its value is recorded under its group
number when truthy (or when the sub-field is `signature`). -/
def collectTrusteeFields (keys : List String) (d : PyDict) :
    List (String × PyDict) × PyDict :=
  keys.foldl
    (fun (acc : List (String × PyDict) × PyDict) key =>
      match trusteeKeyMatch key with
      | some (num, fname) =>
          let tf :=
            if (alGet acc.1 num).isNone then acc.1 ++ [(num, [])] else acc.1
          let v := (pyGet acc.2 key).getD .none
          let d2 := pyPop acc.2 key
          let tf2 :=
            if pyTruthy v || fname = "signature" then
              alSet tf num (pySet ((alGet tf num).getD []) fname v)
            else tf
          (tf2, d2)
      | Option.none => acc)
    ([], d)

/-- Code-point lexicographic comparison on char lists, the order
Python uses to compare strings. -/
def lexLe : List Char → List Char → Bool
  | [], _ => true
  | _ :: _, [] => false
  | c :: cs, d :: ds =>
      if c.toNat < d.toNat then true
      else if d.toNat < c.toNat then false
      else lexLe cs ds

/-- Python string comparison `a <= b` (code-point lexicographic). -/
def pyStrLe (a b : String) : Bool := lexLe a.data b.data

/-- Python `sorted` on a list of strings (code-point lexicographic). -/
def pySortStrings (l : List String) : List String :=
  l.insertionSort (fun a b => pyStrLe a b = true)

/-- The `trustee_signatures` initialisation step. -/
def signatureInit (d : PyDict) : PyDict :=
  if !pyContains d "trustee_signatures" || !pyGetTruthy d "trustee_signatures" then
    pySet d "trustee_signatures" (.list [])
  else d

/-- Collected per-group fields and the dict with synthetic keys popped. -/
def signatureCollected (d : PyDict) : List (String × PyDict) × PyDict :=
  collectTrusteeFields ((signatureInit d).map Prod.fst) (signatureInit d)

/-- `for trustee_num in sorted(trustee_fields.keys())`: the order in
which groups are emitted. -/
def signatureEmitOrder (d : PyDict) : List String :=
  pySortStrings ((signatureCollected d).1.map Prod.fst)

-- (\d{1,2})[/.-](\d{1,2})[/.-](\d{2,4})
def privacyDateRx : Rx :=
  rseq [.grp 1 (.rep 1 (some 2) false (rcls [.digit])),
    rcls [.one '/', .one '.', .one '-'],
    .grp 2 (.rep 1 (some 2) false (rcls [.digit])),
    rcls [.one '/', .one '.', .one '-'],
    .grp 3 (.rep 2 (some 4) false (rcls [.digit]))]

/-- Date tidy-up inside one signature entry: `re.search` for an embedded
date, zero-fill day and month, expand a 2-digit year (pivot at 50).
`int(year)` cannot fail here because the group is all digits. -/
def privacyCleanDate (v : PyVal) : Except String PyVal :=
  if !pyTruthy v then .ok v
  else
    match v with
    | .str s =>
        match rxSearch false privacyDateRx s with
        | some m =>
            let day := (rxGroup m 1).getD ""
            let month := (rxGroup m 2).getD ""
            let year := (rxGroup m 3).getD ""
            let year2 :=
              if year.length = 2 then
                if (pyInt? year).getD 0 < 50 then "20" ++ year else "19" ++ year
              else year
            .ok (.str (pyZfill2 day ++ "/" ++ pyZfill2 month ++ "/" ++ year2))
        | Option.none => .ok (.str s)
    | _ => .error "TypeError"

/-- Build one signature entry from a collected group, or skip it when
it has neither a truthy name nor a truthy signature. -/
def mkTrusteeEntry (fields : PyDict) : Except String (Option PyVal) :=
  if pyGetTruthy fields "name" || pyGetTruthy fields "signature" then do
    let date ← privacyCleanDate ((pyGet fields "date").getD .none)
    .ok (some (.dict
      [("name", (pyGet fields "name").getD .none),
       ("date", date),
       ("signature",
        if pyGetTruthy fields "signature" then .str "Present" else .none)]))
  else .ok Option.none

/-- `DataPrivacyStatementExtractor._process_trustee_signatures_from_flat_structure`. -/
def processTrusteeSignatures (d : PyDict) : Except String PyDict :=
  let collected := signatureCollected d
  (signatureEmitOrder d).foldlM
    (fun dd num => do
      let fields := (alGet collected.1 num).getD []
      match ← mkTrusteeEntry fields with
      | some entry =>
          match pyGet dd "trustee_signatures" with
          | some (.list xs) =>
              .ok (pySet dd "trustee_signatures" (.list (xs ++ [entry])))
          | _ => .error "AttributeError"
      | Option.none => .ok dd)
    collected.2

/-- `NominatedBankAccountExtractor._clean_sort_code`. -/
def cleanSortCode (d : PyDict) : Except String PyDict :=
  if !pyGetTruthy d "sort_code" then .ok d
  else
    match pyGet d "sort_code" with
    | some (.str s) =>
        let digits := pyKeepDigits s
        if digits.length = 6 then
          .ok (pySet d "sort_code" (.str (String.mk (digits.data.take 2) ++ "-" ++
            String.mk ((digits.data.drop 2).take 2) ++ "-" ++
            String.mk ((digits.data.drop 4).take 2))))
        else
          .ok (pySet d "sort_code" (.str digits))
    | _ => .error "TypeError"

/-! ### `LLMExtractor.extract` and the per-section pipelines

The external chain `prompt | llm | parser` is abstracted as a
`Provider`: given the section and the text, it either returns the
parsed JSON value or raises.  `LLMExtractor.extract` wraps the chain
invocation in `try`, falling back to `RegexExtractor` for the same
section on any exception; the trustee-specific nested-structure fix-up
runs inside the `try`, so its exceptions also trigger the fallback. -/

/-- The model chain: may return any parsed JSON value or raise. -/
abbrev Provider := DocumentSection → String → Except String PyVal

/-- `LLMExtractor.extract`. -/
def llmExtract (sec : DocumentSection) (provider : Provider) (text : String) :
    PyVal :=
  match provider sec text with
  | .error _ => .dict (regexExtract sec text)
  | .ok result =>
      if sec = .trustee_details then
        match processNonUkStructureLLM result with
        | .ok r => r
        | .error _ => .dict (regexExtract sec text)
      else result

/-- A value must be a dict before the post-processors may call `.get`
on it; anything else raises outside the `try` block. -/
def asPyDict : PyVal → Except String PyDict
  | .dict d => .ok d
  | _ => .error "AttributeError"

/-- Boolean field list in `TrusteeExtractor._clean_boolean_fields`. -/
def trusteeBooleanFields : List String :=
  ["existing_aj_bell_account", "born_in_uk", "solely_uk_citizen"]

/-- Boolean field list in `BeneficiaryExtractor._clean_boolean_fields`. -/
def beneficiaryBooleanFields : List String := ["born_in_uk"]

/-- Boolean field list in
`DataPrivacyStatementExtractor._clean_boolean_fields`. -/
def privacyBooleanFields : List String :=
  ["identity_verification_consent", "fraud_prevention_checks_consent",
   "communication_preference_consent"]

/-- `TrustExtractor.extract`: parent extraction only. -/
def trustExtract (provider : Provider) (text : String) : Except String PyVal :=
  .ok (llmExtract .trust_registration provider text)

/-- `DonorExtractor.extract`: parent extraction then the donor
post-processing chain. -/
def donorExtract (provider : Provider) (text : String) : Except String PyVal := do
  let d ← asPyDict (llmExtract .donor_details provider text)
  let d ← cleanDateOfBirth d
  let d ← cleanNINumberTD d
  let d ← cleanAddressFields d
  .ok (.dict (inferDeceasedStatus d text))

/-- `TrusteeExtractor.extract`. -/
def trusteeExtract (provider : Provider) (text : String) :
    Except String PyVal := do
  let d ← asPyDict (llmExtract .trustee_details provider text)
  let d ← cleanDateOfBirth d
  let d ← cleanNINumberTD d
  let d ← cleanAddressFields d
  let d := cleanBooleanFields trusteeBooleanFields truthyTokens d
  .ok (.dict (trusteeProcessNonUk d))

/-- `BeneficiaryExtractor.extract`. -/
def beneficiaryExtract (provider : Provider) (text : String) :
    Except String PyVal := do
  let d ← asPyDict (llmExtract .beneficiary_details provider text)
  let d ← cleanDateOfBirth d
  let d ← cleanNINumberBenef d
  let d ← cleanAddressFields d
  let d := cleanBooleanFields beneficiaryBooleanFields beneficiaryTokens d
  .ok (.dict (beneficiaryProcessNonUk d))

/-- `NominatedBankAccountExtractor.extract`. -/
def nominatedBankAccountExtract (provider : Provider) (text : String) :
    Except String PyVal := do
  let d ← asPyDict (llmExtract .nominated_bank_account provider text)
  let d ← cleanAccountNumber d
  let d ← cleanSortCode d
  .ok (.dict d)

/-- `SecurityInformationExtractor.extract`. -/
def securityInformationExtract (provider : Provider) (text : String) :
    Except String PyVal := do
  let d ← asPyDict (llmExtract .security_information provider text)
  .ok (.dict (processSecurityQuestions d))

/-- `DataPrivacyStatementExtractor.extract`. -/
def dataPrivacyStatementExtract (provider : Provider) (text : String) :
    Except String PyVal := do
  let d ← asPyDict (llmExtract .data_privacy_statement provider text)
  let d ← processTrusteeSignatures d
  .ok (.dict (cleanBooleanFields privacyBooleanFields truthyTokens d))

/-- The extractor dispatch in `process_document` (`src/main.py`). -/
def extractFor : DocumentSection → Provider → String → Except String PyVal
  | .trust_registration => trustExtract
  | .donor_details => donorExtract
  | .trustee_details => trusteeExtract
  | .beneficiary_details => beneficiaryExtract
  | .nominated_bank_account => nominatedBankAccountExtract
  | .security_information => securityInformationExtract
  | .data_privacy_statement => dataPrivacyStatementExtract

/-! ### Section classifier (`PDFProcessor.identify_sections`) -/

/-- Keyword/phrase markers per section, as listed in
`identify_sections`. -/
def sectionMarkers : DocumentSection → List String
  | .trust_registration =>
      ["trust registration", "hmrc unique reference", "urn",
       "proof of registration"]
  | .donor_details =>
      ["details of donor", "donor details", "person who made the gift",
       "national insurance number", "permanent residential address"]
  | .trustee_details =>
      ["details of trustees", "trustee details", "individual trustee",
       "first individual trustee", "section c", "nominated contact"]
  | .beneficiary_details =>
      ["beneficiary details", "details of beneficiary", "section e",
       "named beneficiary", "bare trust"]
  | .nominated_bank_account =>
      ["nominated bank account", "section f", "bank account",
       "building society account", "cash withdrawals"]
  | .security_information =>
      ["username and security", "section g", "security question",
       "online account", "mother\x27s maiden name", "first school"]
  | .data_privacy_statement =>
      ["data privacy statement", "privacy policy", "identity verification",
       "fraud prevention", "communication preference", "trustee signature"]

/-- `any(marker in text_lower for marker in [...])`. -/
def pageMatchesSection (text : String) (sec : DocumentSection) : Bool :=
  (sectionMarkers sec).any (fun m => pyInStr m (pyLower text))

/-- The per-page `PageTextMap`, an insertion-ordered mapping from page
index to page text. -/
abbrev PageTextMap := List (Nat × String)

/-- Append a page to one section of the accumulating index. -/
def secAppend (acc : List (DocumentSection × List Nat)) (sec : DocumentSection)
    (p : Nat) : List (DocumentSection × List Nat) :=
  acc.map (fun sl => if sl.1 = sec then (sl.1, sl.2 ++ [p]) else sl)

/-- `PDFProcessor.identify_sections`: initialise every section to an
empty list, then append each page to every section whose marker list it
satisfies (pages outer, the seven checks in declaration order). -/
def identifySections (et : PageTextMap) : List (DocumentSection × List Nat) :=
  et.foldl
    (fun acc pt =>
      allSections.foldl
        (fun acc2 sec =>
          if pageMatchesSection pt.2 sec then secAppend acc2 sec pt.1 else acc2)
        acc)
    (allSections.map (fun s => (s, [])))

/-- `identified_sections.get(section, [])`. -/
def sectionLookup (m : List (DocumentSection × List Nat))
    (sec : DocumentSection) : Option (List Nat) :=
  (m.find? (fun sl => sl.1 = sec)).map (fun sl => sl.2)

/-! ### Orchestrator (`process_document` in `src/main.py`)

The model starts from the extracted per-page text: PDF decoding, OCR
and the file-existence check are external collaborators.  `extracted_text[page]`
cannot raise `KeyError` because every page index in the section index
comes from the page map itself, so the lookup is modelled with a
default. -/

/-- `extracted_text[page]`. -/
def pageText (et : PageTextMap) (p : Nat) : String :=
  ((et.find? (fun x => x.1 = p)).map (fun x => x.2)).getD ""

/-- `" ".join(extracted_text[page] for page in pages)`. -/
def joinSpace (l : List String) : String := String.intercalate " " l

/-- `sections_to_process`: the explicit filter when supplied, else all
sections whose identified page list is non-empty (iteration order of
the identified dict = `allSections`). -/
def sectionsToProcess (et : PageTextMap)
    (sectionsFilter : Option (List String)) : List DocumentSection :=
  match sectionsFilter with
  | some ss => allSections.filter (fun sec => sec.value ∈ ss)
  | Option.none =>
      ((identifySections et).filter (fun sl => sl.2 ≠ [])).map (fun sl => sl.1)

/-- `process_document` from the section-identification step on: choose
the sections to process, and for each with a non-empty page list, join
its page texts and run its extractor, keying the result map by
`section.value`. -/
def processDocument (et : PageTextMap) (sectionsFilter : Option (List String))
    (provider : Provider) : Except String PyDict :=
  if sectionsToProcess et sectionsFilter = [] then .ok []
  else
    (sectionsToProcess et sectionsFilter).foldlM
      (fun results sec =>
        let pages := (sectionLookup (identifySections et) sec).getD []
        if pages = [] then .ok results
        else do
          let text := joinSpace (pages.map (pageText et))
          let v ← extractFor sec provider text
          .ok (pySet results sec.value v))
      []

/-! ### Pydantic validation of the trustee schema
(`src/schemas/trustee_details.py`, `BaseExtractor.validate`)

`BaseExtractor.validate` constructs the registered pydantic model from
the dict and returns `model_dump()`.  Pydantic v2 defaults apply: extra
keys are ignored (no `extra` setting in `model_config`), missing
optional fields become `None`, and `model_dump` emits every declared
field in declaration order. -/

/-- Field shapes occurring in `TrusteeDetails`. -/
inductive FieldKind where
  | optStr
  | optBool
  | optNonUK
  deriving Repr, DecidableEq

/-- Declared fields of `NonUKDetails`, in declaration order. -/
def nonUkSchemaFields : List String :=
  ["country_of_birth", "nationality", "id_number", "type_of_number",
   "passport_number", "primary_residence", "secondary_residence",
   "country_of_citizenship", "second_country_of_citizenship"]

/-- Declared fields of `TrusteeDetails`, in declaration order. -/
def trusteeSchemaFields : List (String × FieldKind) :=
  [("title", .optStr), ("surname", .optStr), ("forenames", .optStr),
   ("date_of_birth", .optStr), ("national_insurance_number", .optStr),
   ("permanent_residential_address", .optStr), ("postcode", .optStr),
   ("country", .optStr), ("telephone_number", .optStr),
   ("email_address", .optStr), ("existing_account", .optBool),
   ("account_number", .optStr), ("born_in_uk", .optBool),
   ("solely_uk_citizen", .optBool), ("not_uk_details", .optNonUK)]

/-- Pydantic v2 lax validation of `Optional[str]`. -/
def pydOptStr : Option PyVal → Except String PyVal
  | Option.none => .ok .none
  | some .none => .ok .none
  | some (.str s) => .ok (.str s)
  | some _ => .error "ValidationError"

/-- Pydantic v2 lax string-to-bool coercion table. -/
def pydStrBool (s : String) : Option Bool :=
  let l := pyLower s
  if l = "true" ∨ l = "t" ∨ l = "yes" ∨ l = "y" ∨ l = "on" ∨ l = "1" then
    some true
  else if l = "false" ∨ l = "f" ∨ l = "no" ∨ l = "n" ∨ l = "off" ∨ l = "0" then
    some false
  else Option.none

/-- Pydantic v2 lax validation of `Optional[bool]`. -/
def pydOptBool : Option PyVal → Except String PyVal
  | Option.none => .ok .none
  | some .none => .ok .none
  | some (.bool b) => .ok (.bool b)
  | some (.int n) =>
      if n = 0 then .ok (.bool false)
      else if n = 1 then .ok (.bool true)
      else .error "ValidationError"
  | some (.str s) =>
      match pydStrBool s with
      | some b => .ok (.bool b)
      | Option.none => .error "ValidationError"
  | some _ => .error "ValidationError"

/-- Pydantic v2 validation of `Optional[NonUKDetails]`: a dict is
validated field-wise (extra ignored, missing become `None`) and dumped
in declaration order. -/
def pydOptNonUK : Option PyVal → Except String PyVal
  | Option.none => .ok .none
  | some .none => .ok .none
  | some (.dict xs) => do
      let fields ← nonUkSchemaFields.mapM
        (fun f => do
          let v ← pydOptStr (pyGet xs f)
          pure (f, v))
      .ok (.dict fields)
  | some _ => .error "ValidationError"

/-- `BaseExtractor.validate` for the trustee schema:
`TrusteeDetails(**data).model_dump()` or a raised validation failure. -/
def validateTrusteeDetails (d : PyDict) : Except String PyDict :=
  trusteeSchemaFields.mapM
    (fun fk => do
      let v ←
        match fk.2 with
        | .optStr => pydOptStr (pyGet d fk.1)
        | .optBool => pydOptBool (pyGet d fk.1)
        | .optNonUK => pydOptNonUK (pyGet d fk.1)
      pure (fk.1, v))

/-- A concrete single-page document whose only matching section is
trustee details, processed with an always-raising model provider. -/
def sampleTrusteeRun : Except String PyDict :=
  processDocument [(0, "trustee details")] Option.none
    (fun _ _ => Except.error "ProviderError")

/-- The per-section entity the orchestrator stores in that run. -/
def sampleTrusteeStored : PyDict :=
  match sampleTrusteeRun with
  | .ok r =>
      match pyGet r "trustee_details" with
      | some (.dict d) => d
      | _ => []
  | .error _ => []

/-- The `model_dump` of validating that entity against the registered
trustee schema. -/
def sampleTrusteeValidated : PyDict :=
  match validateTrusteeDetails sampleTrusteeStored with
  | .ok v => v
  | .error _ => []

/-! ## Supporting lemmas -/

theorem pyGet_pySet (d : PyDict) (k k2 : String) (v : PyVal) :
    pyGet (pySet d k v) k2 = if k = k2 then some v else pyGet d k2 := by
  induction d with
  | nil =>
      by_cases h : k = k2 <;> simp [pySet, pyGet, h]
  | cons hd tl ih =>
      obtain ⟨k3, v3⟩ := hd
      simp only [pySet]
      by_cases h3 : k3 = k
      · subst h3
        by_cases h : k3 = k2
        · subst h; simp [pyGet]
        · simp [pyGet, h]
      · simp only [if_neg h3, pyGet]
        by_cases h : k3 = k2
        · subst h
          have : ¬ k = k3 := fun he => h3 he.symm
          simp [this]
        · simp [h, ih]

theorem map_fst_pySet_mem (d : PyDict) (k : String) (v : PyVal)
    (h : k ∈ d.map Prod.fst) : (pySet d k v).map Prod.fst = d.map Prod.fst := by
  induction d with
  | nil => simp at h
  | cons hd tl ih =>
      obtain ⟨k3, v3⟩ := hd
      simp only [pySet]
      by_cases h3 : k3 = k
      · simp [h3]
      · simp only [List.map_cons, List.mem_cons] at h
        rcases h with h | h
        · exact absurd h.symm h3
        · simp [if_neg h3, ih h]

theorem map_fst_pySet_notmem (d : PyDict) (k : String) (v : PyVal)
    (h : k ∉ d.map Prod.fst) :
    (pySet d k v).map Prod.fst = d.map Prod.fst ++ [k] := by
  induction d with
  | nil => simp [pySet]
  | cons hd tl ih =>
      obtain ⟨k3, v3⟩ := hd
      simp only [List.map_cons, List.mem_cons] at h
      push_neg at h
      simp only [pySet, if_neg (Ne.symm h.1), List.map_cons, ih h.2,
        List.cons_append]

theorem find?_eq_of_mem_nodup {β : Type} (l : List (String × β)) (a : String)
    (b : β) (hnd : (l.map Prod.fst).Nodup) (hmem : (a, b) ∈ l) :
    l.find? (fun x => x.1 = a) = some (a, b) := by
  induction l with
  | nil => simp at hmem
  | cons hd tl ih =>
      obtain ⟨k, v⟩ := hd
      simp only [List.map_cons, List.nodup_cons] at hnd
      rcases List.mem_cons.mp hmem with h | h
      · injection h with h1 h2
        subst h1; subst h2
        rw [List.find?_cons_of_pos _ (by simp)]
      · have hk : k ≠ a := by
          intro he; subst he
          exact hnd.1 (List.mem_map.mpr ⟨(k, b), h, rfl⟩)
        rw [List.find?_cons_of_neg _ (by simp [hk])]
        exact ih hnd.2 h

theorem dropWhile_head_false {p : Char → Bool} {l : List Char} {c : Char}
    {t : List Char} (h : l.dropWhile p = c :: t) : p c = false := by
  induction l with
  | nil => simp [List.dropWhile] at h
  | cons hd tl ih =>
      by_cases hp : p hd
      · rw [List.dropWhile_cons_of_pos hp] at h
        exact ih h
      · rw [List.dropWhile_cons_of_neg hp] at h
        injection h with h1 _
        subst h1
        exact Bool.of_not_eq_true hp

theorem pyStrip_idem (s : String) : pyStrip (pyStrip s) = pyStrip s := by
  unfold pyStrip
  set A := s.data.dropWhile pyIsSpace with hA
  set B := (A.reverse.dropWhile pyIsSpace).reverse with hB
  simp only
  have hBA : B <+: A := by
    have h1 : A.reverse.dropWhile pyIsSpace <:+ A.reverse := List.dropWhile_suffix _
    have := h1.reverse
    rwa [List.reverse_reverse] at this
  rcases hBnil : B with _ | ⟨c, bs⟩
  · simp [List.dropWhile]
  · have hcA : ∃ t, A = c :: t := by
      obtain ⟨t2, ht2⟩ := hBA
      rw [hBnil] at ht2
      exact ⟨bs ++ t2, by rw [← ht2]; simp⟩
    obtain ⟨t, ht⟩ := hcA
    have hpc : pyIsSpace c = false := dropWhile_head_false (hA ▸ ht)
    have hstep1 : List.dropWhile pyIsSpace (c :: bs) = c :: bs := by
      rw [List.dropWhile_cons_of_neg (by simp [hpc])]
    rw [← hBnil] at hstep1 ⊢
    rw [hstep1]
    have hrev : B.reverse.dropWhile pyIsSpace = B.reverse := by
      rw [hB, List.reverse_reverse]
      rcases hD : A.reverse.dropWhile pyIsSpace with _ | ⟨c2, t2⟩
      · simp [List.dropWhile]
      · rw [List.dropWhile_cons_of_neg (by simp [dropWhile_head_false hD])]
    rw [hrev, List.reverse_reverse]

theorem pyStrip_empty : pyStrip "" = "" := rfl

theorem pyStrip_allspace (s : String) (h : ∀ c ∈ s.data, pyIsSpace c = true) :
    pyStrip s = "" := by
  unfold pyStrip
  have h1 : s.data.dropWhile pyIsSpace = [] := List.dropWhile_eq_nil_iff.mpr h
  rw [h1]
  rfl

theorem pyGet_foldl_set {β : Type} (g : String × β → PyVal) :
    ∀ (l : List (String × β)) (d : PyDict) (f : String),
      (l.map Prod.fst).Nodup →
      pyGet (l.foldl (fun acc kv => pySet acc kv.1 (g kv)) d) f =
        (match l.find? (fun x => x.1 = f) with
         | some kv => some (g kv)
         | Option.none => pyGet d f) := by
  intro l
  induction l with
  | nil => intro d f _; rfl
  | cons kv rest ih =>
      intro d f hnd
      simp only [List.map_cons, List.nodup_cons] at hnd
      simp only [List.foldl_cons]
      rw [ih _ f hnd.2]
      by_cases hf : kv.1 = f
      · subst hf
        have hfind : rest.find? (fun x => x.1 = kv.1) = Option.none := by
          rw [List.find?_eq_none]
          intro x hx
          simp only [decide_eq_true_eq]
          intro he
          exact hnd.1 (List.mem_map.mpr ⟨x, hx, he⟩)
        rw [hfind, List.find?_cons_of_pos _ (by simp), pyGet_pySet, if_pos rfl]
      · rw [List.find?_cons_of_neg _ (by simp [hf])]
        cases hfind : rest.find? (fun x => x.1 = f) with
        | some kv2 => rfl
        | none => simp only [pyGet_pySet, if_neg hf]

theorem map_fst_foldl_set {β : Type} (g : String × β → PyVal) :
    ∀ (l : List (String × β)) (d : PyDict),
      ((d.map Prod.fst ++ l.map Prod.fst)).Nodup →
      (l.foldl (fun acc kv => pySet acc kv.1 (g kv)) d).map Prod.fst =
        d.map Prod.fst ++ l.map Prod.fst := by
  intro l
  induction l with
  | nil => intro d _; simp
  | cons kv rest ih =>
      intro d hnd
      have hnotmem : kv.1 ∉ d.map Prod.fst := by
        intro hmem
        exact (List.nodup_append.mp hnd).2.2 hmem (by simp)
      simp only [List.foldl_cons]
      have hset := map_fst_pySet_notmem d kv.1 (g kv) hnotmem
      have hrearr : (d.map Prod.fst ++ [kv.1]) ++ rest.map Prod.fst =
          d.map Prod.fst ++ (kv.1 :: rest.map Prod.fst) := by
        simp
      rw [ih (pySet d kv.1 (g kv)) (by rw [hset, hrearr]; simpa using hnd), hset,
        hrearr]
      simp

theorem tableKeysNodup (sec : DocumentSection) :
    ((configurePatterns sec).map Prod.fst).Nodup := by
  cases sec <;> decide

theorem regexExtract_keys (sec : DocumentSection) (text : String) :
    (regexExtract sec text).map Prod.fst = (configurePatterns sec).map Prod.fst := by
  unfold regexExtract
  have := map_fst_foldl_set
    (fun fp : String × List RxPat => regexFieldValue fp.1 fp.2 text)
    (configurePatterns sec) [] (by simpa using tableKeysNodup sec)
  simpa using this

theorem regexExtract_lookup (sec : DocumentSection) (text : String) (f : String) :
    pyGet (regexExtract sec text) f =
      (match (configurePatterns sec).find? (fun x => x.1 = f) with
       | some fp => some (regexFieldValue fp.1 fp.2 text)
       | Option.none => Option.none) := by
  unfold regexExtract
  rw [pyGet_foldl_set (fun fp : String × List RxPat => regexFieldValue fp.1 fp.2 text)
    (configurePatterns sec) [] f (tableKeysNodup sec)]
  cases (configurePatterns sec).find? (fun x => x.1 = f) <;> rfl

theorem regexFieldValue_shape (f : String) (pats : List RxPat) (text : String) :
    (∃ b, regexFieldValue f pats text = .bool b) ∨
      regexFieldValue f pats text = .none ∨
      (∃ s, regexFieldValue f pats text = .str s ∧ pyStrip s = s) := by
  unfold regexFieldValue
  cases firstRxHit pats text with
  | some mg =>
      by_cases hg : mg.2 = 0
      · left; exact ⟨true, by simp [hg]⟩
      · right; right
        refine ⟨pyStrip ((rxGroup mg.1 mg.2).getD ""), ?_, pyStrip_idem _⟩
        simp [hg]
  | none =>
      unfold regexDefault
      by_cases h1 : f = "proof_of_registration_attached" ∨ f = "deceased" ∨
          f = "born_in_uk"
      · left; exact ⟨false, by simp [h1]⟩
      · by_cases h2 : f = "not_born_in_uk" ∨ f = "security_questions"
        · right; left; simp [h1, h2]
        · right; right
          exact ⟨"", by simp [h1, h2], rfl⟩

theorem sectionLookup_secAppend (acc : List (DocumentSection × List Nat))
    (sec2 : DocumentSection) (p : Nat) (sec : DocumentSection) :
    sectionLookup (secAppend acc sec2 p) sec =
      if sec2 = sec then (sectionLookup acc sec).map (fun l => l ++ [p])
      else sectionLookup acc sec := by
  induction acc with
  | nil =>
      by_cases h : sec2 = sec <;> simp [secAppend, sectionLookup, h]
  | cons hd tl ih =>
      obtain ⟨s, l⟩ := hd
      have hcons : secAppend ((s, l) :: tl) sec2 p =
          (if s = sec2 then (s, l ++ [p]) else (s, l)) :: secAppend tl sec2 p := by
        simp [secAppend]
      rw [hcons]
      by_cases hs : s = sec
      · subst hs
        by_cases h2 : s = sec2
        · subst h2
          rw [if_pos rfl]
          simp [sectionLookup, List.find?_cons_of_pos]
        · rw [if_neg h2]
          have hne : ¬ sec2 = s := fun he => h2 he.symm
          simp [sectionLookup, List.find?_cons_of_pos, hne]
      · have hfst : (if s = sec2 then ((s, l ++ [p]) : DocumentSection × List Nat)
            else (s, l)).1 = s := by
          split <;> rfl
        have k1 : sectionLookup
            ((if s = sec2 then (s, l ++ [p]) else (s, l)) :: secAppend tl sec2 p)
            sec = sectionLookup (secAppend tl sec2 p) sec := by
          simp only [sectionLookup]
          rw [List.find?_cons_of_neg _ (by simp [hfst, hs])]
        have k2 : sectionLookup ((s, l) :: tl) sec = sectionLookup tl sec := by
          simp [sectionLookup, List.find?_cons_of_neg, hs]
        rw [k1, k2, ih]

theorem step_lookup (a : List (DocumentSection × List Nat))
    (s : DocumentSection) (p : Nat) (sec : DocumentSection) (t : String) :
    sectionLookup (if pageMatchesSection t s then secAppend a s p else a) sec =
      if s = sec ∧ pageMatchesSection t s then
        (sectionLookup a sec).map (fun l => l ++ [p])
      else sectionLookup a sec := by
  by_cases hc : pageMatchesSection t s
  · rw [if_pos hc, sectionLookup_secAppend]
    by_cases hs : s = sec
    · subst hs; simp [hc]
    · simp [hs]
  · rw [if_neg hc]
    simp [hc]

theorem innerFold_lookup (t : String) (p : Nat)
    (acc : List (DocumentSection × List Nat)) (sec : DocumentSection) :
    sectionLookup
      (allSections.foldl
        (fun a s => if pageMatchesSection t s then secAppend a s p else a) acc)
      sec =
      if pageMatchesSection t sec then
        (sectionLookup acc sec).map (fun l => l ++ [p])
      else sectionLookup acc sec := by
  cases sec <;>
    simp only [allSections, List.foldl_cons, List.foldl_nil, step_lookup] <;>
    simp

theorem outerFold_lookup (sec : DocumentSection) :
    ∀ (et : PageTextMap) (acc : List (DocumentSection × List Nat)) (L : List Nat),
      sectionLookup acc sec = some L →
      sectionLookup
        (et.foldl
          (fun acc2 pt =>
            allSections.foldl
              (fun a s =>
                if pageMatchesSection pt.2 s then secAppend a s pt.1 else a)
              acc2)
          acc) sec =
        some (L ++ (et.filter (fun pt => pageMatchesSection pt.2 sec)).map Prod.fst) := by
  intro et
  induction et with
  | nil => intro acc L h; simpa using h
  | cons pt rest ih =>
      intro acc L h
      simp only [List.foldl_cons]
      by_cases hm : pageMatchesSection pt.2 sec
      · have hstep := innerFold_lookup pt.2 pt.1 acc sec
        rw [if_pos hm, h] at hstep
        have := ih _ (L ++ [pt.1]) hstep
        rw [this, List.filter_cons_of_pos (by simpa using hm)]
        simp
      · have hstep := innerFold_lookup pt.2 pt.1 acc sec
        rw [if_neg hm, h] at hstep
        have := ih _ L hstep
        rw [this, List.filter_cons_of_neg (by simpa using hm)]

theorem identify_lookup (et : PageTextMap) (sec : DocumentSection) :
    sectionLookup (identifySections et) sec =
      some ((et.filter (fun pt => pageMatchesSection pt.2 sec)).map Prod.fst) := by
  have hinit : sectionLookup (allSections.map (fun s => (s, ([] : List Nat)))) sec =
      some [] := by
    cases sec <;> rfl
  have := outerFold_lookup sec et (allSections.map (fun s => (s, []))) [] hinit
  simpa [identifySections] using this

theorem map_fst_secAppend (acc : List (DocumentSection × List Nat))
    (s : DocumentSection) (p : Nat) :
    (secAppend acc s p).map Prod.fst = acc.map Prod.fst := by
  unfold secAppend
  rw [List.map_map]
  apply List.map_congr_left
  intro sl _
  by_cases h : sl.1 = s <;> simp [h]

theorem identify_keys (et : PageTextMap) :
    (identifySections et).map Prod.fst = allSections := by
  unfold identifySections
  have hinner : ∀ (t : String) (p : Nat) (secs : List DocumentSection)
      (acc : List (DocumentSection × List Nat)),
      ((secs.foldl
        (fun a s => if pageMatchesSection t s then secAppend a s p else a) acc).map
        Prod.fst) = acc.map Prod.fst := by
    intro t p secs
    induction secs with
    | nil => intro acc; rfl
    | cons s rest ih =>
        intro acc
        simp only [List.foldl_cons]
        rw [ih]
        by_cases h : pageMatchesSection t s
        · rw [if_pos h, map_fst_secAppend]
        · rw [if_neg h]
  have houter : ∀ (l : PageTextMap) (acc : List (DocumentSection × List Nat)),
      ((l.foldl
        (fun acc2 pt =>
          allSections.foldl
            (fun a s => if pageMatchesSection pt.2 s then secAppend a s pt.1 else a)
            acc2) acc).map Prod.fst) = acc.map Prod.fst := by
    intro l
    induction l with
    | nil => intro acc; rfl
    | cons pt rest ih =>
        intro acc
        simp only [List.foldl_cons]
        rw [ih, hinner]
  rw [houter]
  rfl

theorem sectionValue_inj (s1 s2 : DocumentSection) (h : s1.value = s2.value) :
    s1 = s2 := by
  cases s1 <;> cases s2 <;> first | rfl | (exfalso; exact absurd h (by decide))

theorem processFold_lookup (identified : List (DocumentSection × List Nat))
    (et : PageTextMap) (provider : Provider) :
    ∀ (l : List DocumentSection) (results r : PyDict),
      l.foldlM
        (fun results sec =>
          let pages := (sectionLookup identified sec).getD []
          if pages = [] then Except.ok results
          else do
            let text := joinSpace (pages.map (pageText et))
            let v ← extractFor sec provider text
            Except.ok (pySet results sec.value v))
        results = .ok r →
      ∀ (sec : DocumentSection) (v : PyVal), pyGet r sec.value = some v →
        pyGet results sec.value = some v ∨
          (sec ∈ l ∧ (sectionLookup identified sec).getD [] ≠ [] ∧
            extractFor sec provider
              (joinSpace (((sectionLookup identified sec).getD []).map
                (pageText et))) = .ok v) := by
  intro l
  induction l with
  | nil =>
      intro results r h sec v hv
      simp only [List.foldlM_nil] at h
      injection h with h
      subst h
      exact Or.inl hv
  | cons sec0 rest ih =>
      intro results r h sec v hv
      simp only [List.foldlM_cons] at h
      by_cases hpg : (sectionLookup identified sec0).getD [] = []
      · rw [if_pos hpg] at h
        simp only [bind, Except.bind] at h
        rcases ih results r h sec v hv with hl | hr
        · exact Or.inl hl
        · exact Or.inr ⟨List.mem_cons_of_mem _ hr.1, hr.2⟩
      · rw [if_neg hpg] at h
        cases hext : extractFor sec0 provider
            (joinSpace (((sectionLookup identified sec0).getD []).map
              (pageText et))) with
        | error e =>
            rw [hext] at h
            simp [bind, Except.bind] at h
        | ok v0 =>
            rw [hext] at h
            simp only [bind, Except.bind] at h
            rcases ih _ r h sec v hv with hl | hr
            · rw [pyGet_pySet] at hl
              by_cases hvv : sec0.value = sec.value
              · have hss : sec0 = sec := sectionValue_inj _ _ hvv
                rw [if_pos hvv] at hl
                injection hl with hl
                subst hl
                subst hss
                exact Or.inr ⟨List.mem_cons_self _ _, hpg, hext⟩
              · rw [if_neg hvv] at hl
                exact Or.inl hl
            · exact Or.inr ⟨List.mem_cons_of_mem _ hr.1, hr.2⟩

theorem signature_emission (tf : List (String × PyDict)) :
    ∀ (order : List String) (dd r : PyDict) (xs0 : List PyVal),
      pyGet dd "trustee_signatures" = some (.list xs0) →
      order.foldlM
        (fun dd num => do
          let fields := (alGet tf num).getD []
          match ← mkTrusteeEntry fields with
          | some entry =>
              match pyGet dd "trustee_signatures" with
              | some (.list xs) =>
                  Except.ok (pySet dd "trustee_signatures" (.list (xs ++ [entry])))
              | _ => Except.error "AttributeError"
          | Option.none => Except.ok dd)
        dd = .ok r →
      pyGet r "trustee_signatures" =
        some (.list (xs0 ++ order.filterMap (fun num =>
          match mkTrusteeEntry ((alGet tf num).getD []) with
          | .ok o => o
          | .error _ => Option.none))) := by
  intro order
  induction order with
  | nil =>
      intro dd r xs0 h0 h
      simp only [List.foldlM_nil] at h
      injection h with h
      subst h
      simpa using h0
  | cons num rest ih =>
      intro dd r xs0 h0 h
      simp only [List.foldlM_cons] at h
      cases hmk : mkTrusteeEntry ((alGet tf num).getD []) with
      | error e =>
          rw [hmk] at h
          simp [bind, Except.bind] at h
      | ok o =>
          rw [hmk] at h
          cases o with
          | some entry =>
              simp only [bind, Except.bind, h0] at h
              have hnew : pyGet (pySet dd "trustee_signatures"
                  (.list (xs0 ++ [entry]))) "trustee_signatures" =
                  some (.list (xs0 ++ [entry])) := by
                rw [pyGet_pySet, if_pos rfl]
              have := ih _ r (xs0 ++ [entry]) hnew h
              rw [this]
              simp [List.filterMap_cons, hmk]
          | none =>
              simp only [bind, Except.bind] at h
              have := ih _ r xs0 h0 h
              rw [this]
              simp [List.filterMap_cons, hmk]

theorem lexLe_total : ∀ x y : List Char, lexLe x y = true ∨ lexLe y x = true := by
  intro x
  induction x with
  | nil => intro y; left; rfl
  | cons c cs ih =>
      intro y
      cases y with
      | nil => right; rfl
      | cons d ds =>
          by_cases h1 : c.toNat < d.toNat
          · left; simp [lexLe, h1]
          · by_cases h2 : d.toNat < c.toNat
            · right; simp [lexLe, h1, h2]
            · rcases ih ds with h | h
              · left; simp [lexLe, h1, h2, h]
              · right; simp [lexLe, h1, h2, h]

theorem lexLe_trans :
    ∀ x y z : List Char, lexLe x y = true → lexLe y z = true →
      lexLe x z = true := by
  intro x
  induction x with
  | nil => intro y z _ _; rfl
  | cons c cs ih =>
      intro y z hxy hyz
      cases y with
      | nil => exact absurd hxy (by simp [lexLe])
      | cons d ds =>
          cases z with
          | nil => exact absurd hyz (by simp [lexLe])
          | cons e es =>
              simp only [lexLe] at hxy hyz ⊢
              by_cases h1 : c.toNat < d.toNat
              · by_cases h2 : d.toNat < e.toNat
                · simp [Nat.lt_trans h1 h2]
                · by_cases h3 : e.toNat < d.toNat
                  · rw [if_neg h2, if_pos h3] at hyz
                    exact absurd hyz (by simp)
                  · have hde : d.toNat = e.toNat := Nat.le_antisymm
                      (Nat.le_of_not_lt h3) (Nat.le_of_not_lt h2)
                    simp [hde ▸ h1]
              · by_cases h4 : d.toNat < c.toNat
                · rw [if_neg h1, if_pos h4] at hxy
                  exact absurd hxy (by simp)
                · have hcd : c.toNat = d.toNat := Nat.le_antisymm
                    (Nat.le_of_not_lt h4) (Nat.le_of_not_lt h1)
                  rw [if_neg h1, if_neg h4] at hxy
                  by_cases h2 : d.toNat < e.toNat
                  · simp [hcd, h2]
                  · by_cases h3 : e.toNat < d.toNat
                    · rw [if_neg h2, if_pos h3] at hyz
                      exact absurd hyz (by simp)
                    · rw [if_neg h2, if_neg h3] at hyz
                      rw [hcd, if_neg h2, if_neg h3]
                      exact ih ds es hxy hyz

instance : IsTotal String (fun a b => pyStrLe a b = true) :=
  ⟨fun a b => lexLe_total a.data b.data⟩

instance : IsTrans String (fun a b => pyStrLe a b = true) :=
  ⟨fun a b c => lexLe_trans a.data b.data c.data⟩

theorem pySortStrings_sorted (l : List String) :
    List.Sorted (fun a b => pyStrLe a b = true) (pySortStrings l) :=
  List.sorted_insertionSort _ l

theorem strMkData (s : String) : String.mk s.data = s := rfl

theorem strDataAppend (a b : String) : (a ++ b).data = a.data ++ b.data := rfl

theorem strNeNilOfData {s : String} {c : Char} {t : List Char}
    (h : s.data = c :: t) : s ≠ "" := by
  intro he
  rw [he] at h
  exact List.noConfusion h

theorem pySplitChar_no_sep (sep : Char) :
    ∀ (l : List Char), sep ∉ l → pySplitChar sep l = [l] := by
  intro l
  induction l with
  | nil => intro _; rfl
  | cons c rest ih =>
      intro h
      simp only [List.mem_cons] at h
      push_neg at h
      have hc : ¬ c = sep := fun he => h.1 he.symm
      simp only [pySplitChar, if_neg hc, ih h.2]

theorem pySplitChar_append (sep : Char) :
    ∀ (a b : List Char), sep ∉ a →
      pySplitChar sep (a ++ sep :: b) = a :: pySplitChar sep b := by
  intro a
  induction a with
  | nil =>
      intro b _
      simp [pySplitChar]
  | cons c a2 ih =>
      intro b h
      simp only [List.mem_cons] at h
      push_neg at h
      have hc : ¬ c = sep := fun he => h.1 he.symm
      have hstep : pySplitChar sep (c :: (a2 ++ sep :: b)) =
          match pySplitChar sep (a2 ++ sep :: b) with
          | [] => [[c]]
          | h2 :: t => (c :: h2) :: t := by
        simp [pySplitChar, if_neg hc]
      rw [List.cons_append, hstep, ih b h.2]

theorem digit_not_space {c : Char} (h : c.isDigit = true) : pyIsSpace c = false := by
  by_contra hsp
  have hsp2 : pyIsSpace c = true := Bool.of_not_eq_false hsp
  simp only [pyIsSpace, Bool.or_eq_true, decide_eq_true_eq] at hsp2
  rcases hsp2 with ((((h1 | h1) | h1) | h1) | h1) | h1 <;>
    (subst h1; exact absurd h (by decide))

theorem dropWhile_all_false {p : Char → Bool} :
    ∀ {l : List Char}, (∀ c ∈ l, p c = false) → l.dropWhile p = l := by
  intro l h
  cases l with
  | nil => rfl
  | cons c t =>
      rw [List.dropWhile_cons_of_neg]
      simp [h c (by simp)]

theorem pyIntSign_nosign {c : Char} (t : List Char) (hcp : c ≠ '+')
    (hcm : c ≠ '-') : pyIntSign (c :: t) = (1, c :: t) := by
  unfold pyIntSign
  split
  · next heq => injection heq with e1 _; exact absurd e1 hcp
  · next heq => injection heq with e1 _; exact absurd e1 hcm
  · rfl

theorem pyInt?_digits (l : List Char) (hne : l ≠ [])
    (hdig : ∀ c ∈ l, c.isDigit = true) :
    pyInt? (String.mk l) = some (digitsToNat l : Int) := by
  have hnsp : ∀ c ∈ l, pyIsSpace c = false := fun c hc => digit_not_space (hdig c hc)
  have h1 : l.dropWhile pyIsSpace = l := dropWhile_all_false hnsp
  have h2 : l.reverse.dropWhile pyIsSpace = l.reverse :=
    dropWhile_all_false (fun c hc => hnsp c (List.mem_reverse.mp hc))
  have hscr : (((String.mk l).data.dropWhile pyIsSpace).reverse.dropWhile
      pyIsSpace).reverse = l := by
    show ((l.dropWhile pyIsSpace).reverse.dropWhile pyIsSpace).reverse = l
    rw [h1, h2, List.reverse_reverse]
  simp only [pyInt?]
  rw [hscr]
  cases l with
  | nil => exact absurd rfl hne
  | cons c t =>
      have hc := hdig c (by simp)
      have hcp : c ≠ '+' := fun he => by subst he; exact absurd hc (by decide)
      have hcm : c ≠ '-' := fun he => by subst he; exact absurd hc (by decide)
      rw [pyIntSign_nosign t hcp hcm]
      simp only
      rw [if_pos]
      · simp
      · simp only [Bool.and_eq_true, decide_eq_true_eq, List.all_eq_true]
        exact ⟨by simp, fun c2 hc2 => hdig c2 hc2⟩

theorem pyRepDashDot_id (s : String)
    (h : ∀ c ∈ s.data, ¬(c = '-' ∨ c = '.')) : pyRepDashDot s = s := by
  unfold pyRepDashDot
  have hmap : s.data.map (fun c => if c = '-' ∨ c = '.' then '/' else c) =
      s.data.map id := List.map_congr_left (fun c hc => by simp [h c hc])
  rw [hmap, List.map_id, strMkData]

theorem toUpper_space {c : Char} (h : pyIsSpace c = true) : c.toUpper = c := by
  simp only [pyIsSpace, Bool.or_eq_true, decide_eq_true_eq] at h
  rcases h with ((((h1 | h1) | h1) | h1) | h1) | h1 <;> (subst h1; decide)

theorem space_not_upperAZ {c : Char} (h : pyIsSpace c = true) :
    isUpperAZ c = false := by
  simp only [pyIsSpace, Bool.or_eq_true, decide_eq_true_eq] at h
  rcases h with ((((h1 | h1) | h1) | h1) | h1) | h1 <;> (subst h1; decide)

theorem niCore9_allspace {l : List Char} (h : ∀ c ∈ l, pyIsSpace c = true) :
    niCore9 l = false := by
  unfold niCore9
  split
  · next a b d1 d2 d3 d4 d5 d6 e =>
      have ha : pyIsSpace a = true := h a (by simp)
      simp [space_not_upperAZ ha]
  · rfl

theorem niCore8_allspace {l : List Char} (h : ∀ c ∈ l, pyIsSpace c = true) :
    niCore8 l = false := by
  unfold niCore8
  split
  · next a b d1 d2 d3 d4 d5 d6 =>
      have ha : pyIsSpace a = true := h a (by simp)
      simp [space_not_upperAZ ha]
  · rfl

theorem reMatchAnchored_allspace (core : List Char → Bool)
    (hcore : ∀ l : List Char, (∀ c ∈ l, pyIsSpace c = true) → core l = false)
    (s : String) (hs : ∀ c ∈ s.data, pyIsSpace c = true) :
    reMatchAnchored core s = false := by
  unfold reMatchAnchored
  rw [hcore s.data hs]
  cases hlast : s.data.getLast? with
  | none => rfl
  | some c =>
      simp only [Bool.false_or]
      rw [hcore s.data.dropLast
        (fun c2 hc2 => hs c2 ((List.dropLast_sublist s.data).subset hc2))]
      simp

/-! ## Claim theorems -/

/-- C2: if the model provider call raises any error, the model-backed
strategy returns exactly the dictionary computed by the pattern
strategy for the same section on the same text, and no exception
propagates (the result is a total value). -/
theorem C2_model_failure_falls_back (sec : DocumentSection) (provider : Provider)
    (text e : String) (h : provider sec text = .error e) :
    llmExtract sec provider text = .dict (regexExtract sec text) := by
  unfold llmExtract
  rw [h]

/-- C2 witness: an always-raising provider on donor text. -/
theorem C2_model_failure_falls_back_witness :
    ((fun (_ : DocumentSection) (_ : String) =>
      (Except.error "ProviderError" : Except String PyVal)) DocumentSection.donor_details
      "Surname: Smith" = Except.error "ProviderError") ∧
    llmExtract .donor_details
      (fun _ _ => Except.error "ProviderError") "Surname: Smith" =
      .dict (regexExtract .donor_details "Surname: Smith") :=
  ⟨rfl, C2_model_failure_falls_back .donor_details
    (fun _ _ => Except.error "ProviderError") "Surname: Smith" "ProviderError" rfl⟩

/-- C3 counterexample: on empty text the boolean-presence field
`solely_uk_citizen` (its single configured pattern has capture-group
index zero) defaults to the empty string, not `False`. -/
theorem C3_counterexample :
    ((configurePatterns .trustee_details).find?
      (fun x => x.1 = "solely_uk_citizen")).map (fun fp => fp.2.map Prod.snd) =
      some [0] ∧
    pyGet (regexExtract .trustee_details "") "solely_uk_citizen" =
      some (.str "") ∧
    PyVal.str "" ≠ PyVal.bool false := by
  refine ⟨rfl, rfl, by decide⟩

/-- C3 amended: the Pattern Strategy always returns exactly the
configured field set (in table order), and a field whose patterns all
fail receives the hard-coded default: `False` only for the field names
`proof_of_registration_attached`, `deceased`, `born_in_uk`; `None` only
for `not_born_in_uk`, `security_questions`; the empty string otherwise
(so group-zero fields such as `solely_uk_citizen` default to `""`). -/
theorem C3_default_fill (sec : DocumentSection) (text : String) :
    (regexExtract sec text).map Prod.fst = (configurePatterns sec).map Prod.fst ∧
    (∀ (f : String) (pats : List RxPat), (f, pats) ∈ configurePatterns sec →
      firstRxHit pats text = Option.none →
      pyGet (regexExtract sec text) f = some (regexDefault f)) := by
  refine ⟨regexExtract_keys sec text, ?_⟩
  intro f pats hmem hmiss
  rw [regexExtract_lookup, find?_eq_of_mem_nodup _ _ _ (tableKeysNodup sec) hmem]
  simp only
  unfold regexFieldValue
  rw [hmiss]

/-- C3 witness: the URN field of the trust table on empty text. -/
theorem C3_default_fill_witness :
    firstRxHit [patUrn1, patUrn2, patUrn3] "" = Option.none ∧
    pyGet (regexExtract .trust_registration "") "HMRC_unique_reference_number" =
      some (regexDefault "HMRC_unique_reference_number") :=
  ⟨rfl, (C3_default_fill .trust_registration "").2 "HMRC_unique_reference_number"
    [patUrn1, patUrn2, patUrn3] (List.mem_cons_self _ _) rfl⟩

/-- C4 counterexample: with the governing flag true, the flat dependent
field `country_of_birth` stays at top level (the early return skips the
pop loop), contradicting the claim that it is discarded.  Both the
trustee and the beneficiary transforms behave this way. -/
theorem C4_counterexample :
    trusteeProcessNonUk
      [("solely_uk_citizen", .bool true), ("country_of_birth", .str "France")] =
      [("solely_uk_citizen", .bool true), ("country_of_birth", .str "France"),
       ("not_uk_details", .none)] ∧
    pyGet (trusteeProcessNonUk
      [("solely_uk_citizen", .bool true), ("country_of_birth", .str "France")])
      "country_of_birth" = some (.str "France") ∧
    beneficiaryProcessNonUk
      [("born_in_uk", .bool true), ("country_of_birth", .str "France")] =
      [("born_in_uk", .bool true), ("country_of_birth", .str "France"),
       ("not_born_in_uk", .none)] ∧
    pyGet (beneficiaryProcessNonUk
      [("born_in_uk", .bool true), ("country_of_birth", .str "France")])
      "country_of_birth" = some (.str "France") :=
  ⟨rfl, rfl, rfl, rfl⟩

/-- C4 amended: when the governing flag equals `True` the transform
only writes `None` to the nested key and returns; the nested key is
exactly null but dependent flat fields already present are left in
place at top level, not discarded. -/
theorem C4_flag_true_nulls_nested_only :
    (∀ d : PyDict, pyEqTrue ((pyGet d "solely_uk_citizen").getD .none) = true →
      trusteeProcessNonUk d = pySet d "not_uk_details" .none ∧
      pyGet (trusteeProcessNonUk d) "not_uk_details" = some .none) ∧
    (∀ d : PyDict, pyEqTrue ((pyGet d "born_in_uk").getD .none) = true →
      beneficiaryProcessNonUk d = pySet d "not_born_in_uk" .none ∧
      pyGet (beneficiaryProcessNonUk d) "not_born_in_uk" = some .none) := by
  constructor
  · intro d ht
    have h1 : trusteeProcessNonUk d = pySet d "not_uk_details" .none := by
      unfold trusteeProcessNonUk processNonUkDetails
      rw [if_pos ht]
    exact ⟨h1, by rw [h1, pyGet_pySet, if_pos rfl]⟩
  · intro d ht
    have h1 : beneficiaryProcessNonUk d = pySet d "not_born_in_uk" .none := by
      unfold beneficiaryProcessNonUk processNonUkDetails
      rw [if_pos ht]
    exact ⟨h1, by rw [h1, pyGet_pySet, if_pos rfl]⟩

/-- C4 witness: concrete dicts with the flags set. -/
theorem C4_flag_true_nulls_nested_only_witness :
    pyEqTrue ((pyGet [("solely_uk_citizen", PyVal.bool true)]
      "solely_uk_citizen").getD .none) = true ∧
    trusteeProcessNonUk [("solely_uk_citizen", PyVal.bool true)] =
      pySet [("solely_uk_citizen", PyVal.bool true)] "not_uk_details" .none ∧
    pyEqTrue ((pyGet [("born_in_uk", PyVal.bool true)]
      "born_in_uk").getD .none) = true ∧
    beneficiaryProcessNonUk [("born_in_uk", PyVal.bool true)] =
      pySet [("born_in_uk", PyVal.bool true)] "not_born_in_uk" .none :=
  ⟨rfl,
   (C4_flag_true_nulls_nested_only.1 [("solely_uk_citizen", PyVal.bool true)] rfl).1,
   rfl,
   (C4_flag_true_nulls_nested_only.2 [("born_in_uk", PyVal.bool true)] rfl).1⟩

/-- C7 counterexample: in the trustee normalizer a whitespace-only
identifier becomes the empty string, not null; and in the beneficiary
normalizer the empty string survives untouched (the falsy guard returns
before the null-collapse check). -/
theorem C7_counterexample :
    cleanNINumberTD [("national_insurance_number", .str " ")] =
      .ok [("national_insurance_number", .str "")] ∧
    PyVal.str "" ≠ PyVal.none ∧
    cleanNINumberBenef [("national_insurance_number", .str "")] =
      .ok [("national_insurance_number", .str "")] :=
  ⟨rfl, by decide, rfl⟩

/-- C7 amended: an empty raw identifier is left unchanged by all three
normalizers (falsy guard); a whitespace-only (nonempty) identifier
collapses to null only in the beneficiary normalizer, while the donor
and trustee normalizers reduce it to the empty string. -/
theorem C7_ni_whitespace_behaviour :
    (∀ (d : PyDict) (s : String),
      pyGet d "national_insurance_number" = some (.str s) → s ≠ "" →
      (∀ c ∈ s.data, pyIsSpace c = true) →
      cleanNINumberTD d = .ok (pySet d "national_insurance_number" (.str "")) ∧
      cleanNINumberBenef d = .ok (pySet d "national_insurance_number" .none)) ∧
    (∀ d : PyDict, pyGet d "national_insurance_number" = some (.str "") →
      cleanNINumberTD d = .ok d ∧ cleanNINumberBenef d = .ok d) := by
  constructor
  · intro d s hget hne hsp
    have htr : pyGetTruthy d "national_insurance_number" = true := by
      simp [pyGetTruthy, hget, pyTruthy, hne]
    have hn1sp : ∀ c ∈ (pyUpper (pyDropSpaces s)).data, pyIsSpace c = true := by
      intro c hc
      simp only [pyUpper, pyDropSpaces] at hc
      obtain ⟨c2, hc2, he⟩ := List.mem_map.mp hc
      have hc2s : pyIsSpace c2 = true := hsp c2 (List.mem_filter.mp hc2).1
      rw [← he, toUpper_space hc2s]
      exact hc2s
    have h9 : reMatchAnchored niCore9 (pyUpper (pyDropSpaces s)) = false :=
      reMatchAnchored_allspace _ (fun _ h => niCore9_allspace h) _ hn1sp
    have h8 : reMatchAnchored niCore8 (pyUpper (pyDropSpaces s)) = false :=
      reMatchAnchored_allspace _ (fun _ h => niCore8_allspace h) _ hn1sp
    have hsub : pySubDashSpace (pyUpper (pyDropSpaces s)) = "" := by
      unfold pySubDashSpace
      have hfil : (pyUpper (pyDropSpaces s)).data.filter
          (fun c => !(c = '-' || pyIsSpace c)) = [] :=
        List.filter_eq_nil_iff.mpr (fun c hc => by simp [hn1sp c hc])
      rw [hfil]
    constructor
    · unfold cleanNINumberTD
      rw [htr, hget]
      simp only [Bool.not_true, Bool.false_eq_true, if_false]
      rw [h9, h8, hsub]
      simp
    · unfold cleanNINumberBenef
      rw [htr, hget]
      simp only [Bool.not_true, Bool.false_eq_true, if_false]
      rw [if_pos (Or.inr (pyStrip_allspace s hsp))]
  · intro d hget
    have htr : pyGetTruthy d "national_insurance_number" = false := by
      simp [pyGetTruthy, hget, pyTruthy]
    constructor
    · unfold cleanNINumberTD
      rw [htr]
      rfl
    · unfold cleanNINumberBenef
      rw [htr]
      rfl

/-- C7 witness: a tab-only value and an empty value. -/
theorem C7_ni_whitespace_behaviour_witness :
    pyGet [("national_insurance_number", PyVal.str "\t")]
      "national_insurance_number" = some (.str "\t") ∧
    cleanNINumberTD [("national_insurance_number", PyVal.str "\t")] =
      .ok (pySet [("national_insurance_number", PyVal.str "\t")]
        "national_insurance_number" (.str "")) ∧
    cleanNINumberBenef [("national_insurance_number", PyVal.str "")] =
      .ok [("national_insurance_number", PyVal.str "")] :=
  ⟨rfl,
   (C7_ni_whitespace_behaviour.1 [("national_insurance_number", PyVal.str "\t")]
     "\t" rfl (by decide) (by decide)).1,
   (C7_ni_whitespace_behaviour.2 [("national_insurance_number", PyVal.str "")]
     rfl).2⟩

/-- C8: evaluation of the boolean coercion at the check-mark token.
The beneficiary normalizer coerces the string U+2713 to `False` because
its token list holds the mojibake sequence for that character, while
the trustee and privacy normalizers coerce it to `True` as the claim
states. -/
theorem C8_beneficiary_checkmark_divergence :
    cleanBooleanFields beneficiaryBooleanFields beneficiaryTokens
      [("born_in_uk", .str "✓")] = [("born_in_uk", .bool false)] ∧
    cleanBooleanFields trusteeBooleanFields truthyTokens
      [("born_in_uk", .str "✓")] = [("born_in_uk", .bool true)] ∧
    cleanBooleanFields privacyBooleanFields truthyTokens
      [("identity_verification_consent", .str "✓")] =
      [("identity_verification_consent", .bool true)] ∧
    "✓" ∉ beneficiaryTokens ∧ "✓" ∈ truthyTokens := by
  refine ⟨rfl, rfl, rfl, by decide, by decide⟩

/-- C5 counterexample: with synthetic groups 2 and 10 present, the
emission order is the string sort `["10", "2"]`, so the entry of group
10 (name "A") precedes the entry of group 2 (name "B"), contradicting
ascending numeric order for these groups. -/
theorem C5_counterexample :
    signatureEmitOrder [("trustee2_name", .str "B"), ("trustee10_name", .str "A")] =
      ["10", "2"] ∧
    pyInt? "10" = some 10 ∧ pyInt? "2" = some 2 ∧
    processTrusteeSignatures
      [("trustee2_name", .str "B"), ("trustee10_name", .str "A")] =
      .ok [("trustee_signatures", .list
        [.dict [("name", .str "A"), ("date", .none), ("signature", .none)],
         .dict [("name", .str "B"), ("date", .none), ("signature", .none)]])] :=
  ⟨by decide, by decide, by decide, by decide⟩

/-- C5 amended: groups are emitted in ascending lexicographic order of
the digit substring (Python sorts the string keys of the group dict),
independent of extraction order; this equals numeric order only when
the numerals have equal length.  The final signature list is the
initial list extended by one entry per qualifying group, following that
sorted order. -/
theorem C5_emit_order (d r : PyDict) (xs0 : List PyVal)
    (h0 : pyGet (signatureCollected d).2 "trustee_signatures" = some (.list xs0))
    (h : processTrusteeSignatures d = .ok r) :
    List.Sorted (fun a b => pyStrLe a b = true) (signatureEmitOrder d) ∧
    pyGet r "trustee_signatures" = some (.list (xs0 ++
      (signatureEmitOrder d).filterMap (fun num =>
        match mkTrusteeEntry ((alGet (signatureCollected d).1 num).getD []) with
        | .ok o => o
        | .error _ => Option.none))) := by
  refine ⟨pySortStrings_sorted _, ?_⟩
  unfold processTrusteeSignatures at h
  exact signature_emission (signatureCollected d).1 (signatureEmitOrder d)
    (signatureCollected d).2 r xs0 h0 h

/-- C5 witness: the two-group example from the specification tests. -/
theorem C5_emit_order_witness :
    pyGet (signatureCollected
      [("trustee1_name", PyVal.str "A Smith"),
       ("trustee1_signature", PyVal.str "sig-bytes"),
       ("trustee2_name", PyVal.str ""),
       ("trustee2_signature", PyVal.str "")]).2 "trustee_signatures" =
      some (.list []) ∧
    processTrusteeSignatures
      [("trustee1_name", PyVal.str "A Smith"),
       ("trustee1_signature", PyVal.str "sig-bytes"),
       ("trustee2_name", PyVal.str ""),
       ("trustee2_signature", PyVal.str "")] =
      .ok [("trustee_signatures", .list
        [.dict [("name", .str "A Smith"), ("date", .none),
                ("signature", .str "Present")]])] ∧
    (List.Sorted (fun a b => pyStrLe a b = true) (signatureEmitOrder
      [("trustee1_name", PyVal.str "A Smith"),
       ("trustee1_signature", PyVal.str "sig-bytes"),
       ("trustee2_name", PyVal.str ""),
       ("trustee2_signature", PyVal.str "")]) ∧
     pyGet [("trustee_signatures", PyVal.list
        [.dict [("name", .str "A Smith"), ("date", .none),
                ("signature", .str "Present")]])] "trustee_signatures" =
      some (.list (([] : List PyVal) ++
        (signatureEmitOrder
          [("trustee1_name", PyVal.str "A Smith"),
           ("trustee1_signature", PyVal.str "sig-bytes"),
           ("trustee2_name", PyVal.str ""),
           ("trustee2_signature", PyVal.str "")]).filterMap (fun num =>
          match mkTrusteeEntry ((alGet (signatureCollected
            [("trustee1_name", PyVal.str "A Smith"),
             ("trustee1_signature", PyVal.str "sig-bytes"),
             ("trustee2_name", PyVal.str ""),
             ("trustee2_signature", PyVal.str "")]).1 num).getD []) with
          | .ok o => o
          | .error _ => Option.none)))) :=
  ⟨by decide, by decide, C5_emit_order _ _ [] (by decide) (by decide)⟩

/-- C9: the Section Classifier returns one entry per `DocumentSection`
(sections with no pages map to the empty list rather than being
absent), and when the page map has no duplicate page index, each
section's page list is duplicate-free and lists pages in input order
(it is a sublist of the page-index sequence). -/
theorem C9_classifier_shape (et : PageTextMap)
    (hnd : (et.map Prod.fst).Nodup) :
    (identifySections et).map Prod.fst = allSections ∧
    ∀ sec : DocumentSection, ∃ l : List Nat,
      sectionLookup (identifySections et) sec = some l ∧
      l.Sublist (et.map Prod.fst) ∧ l.Nodup := by
  refine ⟨identify_keys et, ?_⟩
  intro sec
  refine ⟨_, identify_lookup et sec, ?_, ?_⟩
  · exact (List.filter_sublist et).map Prod.fst
  · exact hnd.sublist ((List.filter_sublist et).map Prod.fst)

/-- C9 witness: a two-page map hitting trustee and bank sections. -/
theorem C9_classifier_shape_witness :
    (([( (0 : Nat), "trustee details"), (1, "bank account")] :
        PageTextMap).map Prod.fst).Nodup ∧
    ((identifySections [(0, "trustee details"), (1, "bank account")]).map
        Prod.fst = allSections ∧
      ∀ sec : DocumentSection, ∃ l : List Nat,
        sectionLookup (identifySections
          [(0, "trustee details"), (1, "bank account")]) sec = some l ∧
        l.Sublist (([( (0 : Nat), "trustee details"), (1, "bank account")] :
          PageTextMap).map Prod.fst) ∧ l.Nodup) :=
  ⟨by decide, C9_classifier_shape _ (by decide)⟩

/-- C10: every value produced by the Pattern Strategy is a boolean,
null, or a whitespace-trimmed string; and a field whose first matching
pattern carries capture-group index zero is set to exactly `True`. -/
theorem C10_extract_value_shapes :
    (∀ (sec : DocumentSection) (text f : String) (v : PyVal),
      pyGet (regexExtract sec text) f = some v →
      (∃ b, v = .bool b) ∨ v = .none ∨ (∃ s, v = .str s ∧ pyStrip s = s)) ∧
    (∀ (sec : DocumentSection) (text f : String) (pats : List RxPat)
      (m : RxMatch),
      (f, pats) ∈ configurePatterns sec → firstRxHit pats text = some (m, 0) →
      pyGet (regexExtract sec text) f = some (.bool true)) := by
  constructor
  · intro sec text f v hv
    rw [regexExtract_lookup] at hv
    cases hfind : (configurePatterns sec).find? (fun x => x.1 = f) with
    | none =>
        rw [hfind] at hv
        exact absurd hv (by simp)
    | some fp =>
        rw [hfind] at hv
        simp only at hv
        injection hv with hv
        exact hv ▸ regexFieldValue_shape fp.1 fp.2 text
  · intro sec text f pats m hmem hhit
    rw [regexExtract_lookup, find?_eq_of_mem_nodup _ _ _ (tableKeysNodup sec) hmem]
    simp only
    unfold regexFieldValue
    rw [hhit]
    simp

/-- C10 witness: a default boolean on empty text and a group-zero
match in the privacy section. -/
theorem C10_extract_value_shapes_witness :
    pyGet (regexExtract .trust_registration "") "proof_of_registration_attached" =
      some (.bool false) ∧
    ((∃ b, (PyVal.bool false) = PyVal.bool b) ∨ (PyVal.bool false) = .none ∨
      (∃ s, (PyVal.bool false) = .str s ∧ pyStrip s = s)) ∧
    ("trustee1_signature", [patTrusteeSig "1"]) ∈
      configurePatterns .data_privacy_statement ∧
    firstRxHit [patTrusteeSig "1"] "Trustee 1 Signature" =
      some (⟨0, 19, [], "Trustee 1 Signature".data⟩, 0) ∧
    pyGet (regexExtract .data_privacy_statement "Trustee 1 Signature")
      "trustee1_signature" = some (.bool true) := by
  have hmem : ("trustee1_signature", [patTrusteeSig "1"]) ∈
      configurePatterns .data_privacy_statement := by
    show _ ∈ dataPrivacyStatementTable
    unfold dataPrivacyStatementTable
    exact List.mem_cons_of_mem _ (List.mem_cons_of_mem _ (List.mem_cons_of_mem _
      (List.mem_cons_of_mem _ (List.mem_cons_of_mem _ (List.mem_cons_self _ _)))))
  refine ⟨rfl, C10_extract_value_shapes.1 .trust_registration ""
    "proof_of_registration_attached" (.bool false) rfl, hmem, rfl,
    C10_extract_value_shapes.2 .data_privacy_statement "Trustee 1 Signature"
      "trustee1_signature" [patTrusteeSig "1"]
      ⟨0, 19, [], "Trustee 1 Signature".data⟩ hmem rfl⟩

/-- Strings with equal char lists are equal. -/
theorem strExt {a b : String} (h : a.data = b.data) : a = b := by
  cases a; cases b; cases h; rfl

/-- A digit char is none of the three date separators. -/
theorem digit_ne_seps {c : Char} (h : c.isDigit = true) :
    ¬(c = '-' ∨ c = '.' ∨ c = '/') := by
  rintro (h1 | h1 | h1) <;> (subst h1; exact absurd h (by decide))

/-- C6 counterexample: the transform is not total — a three-part value
with a non-numeric two-character year raises `ValueError` at `int()` —
and a three-part value that is not a date is rewritten (separators
unified), not left untouched. -/
theorem C6_counterexample :
    cleanDateOfBirth [("date_of_birth", .str "1-2-ab")] = .error "ValueError" ∧
    cleanDateOfBirth [("date_of_birth", .str "a-b.c")] =
      .ok [("date_of_birth", .str "a/b/c")] ∧
    ("a/b/c" : String) ≠ "a-b.c" :=
  ⟨by decide, by decide, by decide⟩

/-- C6 amended: after replacing `-` and `.` by `/`, a value that splits
into anything other than exactly three parts is left untouched; a value
of the form `day sep month sep year` with separator-free day and month
and a two-digit year is rewritten to `day/month/year` with the year
expanded by the pivot rule (≥ 50 → 19xx, < 50 → 20xx).  Totality fails
only for three-part values whose third part has exactly two characters
and is not numeric (then `int()` raises `ValueError`), and three-part
non-dates are rewritten rather than untouched. -/
theorem C6_date_normalization :
    (∀ (d : PyDict) (d1 m ys : String) (sep : Char),
      (sep = '-' ∨ sep = '.' ∨ sep = '/') →
      (∀ c ∈ d1.data, ¬(c = '-' ∨ c = '.' ∨ c = '/')) →
      (∀ c ∈ m.data, ¬(c = '-' ∨ c = '.' ∨ c = '/')) →
      (∀ c ∈ ys.data, c.isDigit = true) → ys.data.length = 2 →
      pyGet d "date_of_birth" =
        some (.str (d1 ++ String.mk [sep] ++ m ++ String.mk [sep] ++ ys)) →
      cleanDateOfBirth d = .ok (pySet d "date_of_birth"
        (.str (d1 ++ "/" ++ m ++ "/" ++
          (if (digitsToNat ys.data : Int) ≥ 50 then "19" ++ ys
           else "20" ++ ys))))) ∧
    (∀ (d : PyDict) (s : String), pyGet d "date_of_birth" = some (.str s) →
      (pySplitSlash (pyRepDashDot s)).length ≠ 3 →
      cleanDateOfBirth d = .ok d) := by
  constructor
  · intro d d1 m ys sep hsep hd1 hm hys hlen hget
    have hdata : (d1 ++ String.mk [sep] ++ m ++ String.mk [sep] ++ ys).data =
        d1.data ++ sep :: (m.data ++ sep :: ys.data) := by
      simp only [strDataAppend]
      show d1.data ++ [sep] ++ m.data ++ [sep] ++ ys.data = _
      simp [List.append_assoc]
    have hne : (d1 ++ String.mk [sep] ++ m ++ String.mk [sep] ++ ys) ≠ "" := by
      intro he
      have : (d1 ++ String.mk [sep] ++ m ++ String.mk [sep] ++ ys).data = [] := by
        rw [he]
      rw [hdata] at this
      exact absurd this (by simp)
    have htr : pyGetTruthy d "date_of_birth" = true := by
      simp [pyGetTruthy, hget, pyTruthy, hne]
    have hfs : (if sep = '-' ∨ sep = '.' then '/' else sep) = '/' := by
      rcases hsep with h | h | h <;> subst h <;> rfl
    have hmapid : ∀ (t : String), (∀ c ∈ t.data, ¬(c = '-' ∨ c = '.' ∨ c = '/')) →
        t.data.map (fun c => if c = '-' ∨ c = '.' then '/' else c) = t.data := by
      intro t ht
      rw [show t.data.map (fun c => if c = '-' ∨ c = '.' then '/' else c) =
          t.data.map id from List.map_congr_left (fun c hc => by
            have := ht c hc
            push_neg at this
            simp [this.1, this.2.1]), List.map_id]
    have hysn : ∀ c ∈ ys.data, ¬(c = '-' ∨ c = '.' ∨ c = '/') :=
      fun c hc => digit_ne_seps (hys c hc)
    have hrep : pyRepDashDot (d1 ++ String.mk [sep] ++ m ++ String.mk [sep] ++ ys) =
        d1 ++ "/" ++ m ++ "/" ++ ys := by
      apply strExt
      show (d1 ++ String.mk [sep] ++ m ++ String.mk [sep] ++ ys).data.map
        (fun c => if c = '-' ∨ c = '.' then '/' else c) = _
      rw [hdata]
      simp only [List.map_append, List.map_cons]
      rw [hmapid d1 hd1, hmapid m hm, hmapid ys hysn, hfs]
      show _ = (d1 ++ "/" ++ m ++ "/" ++ ys).data
      simp only [strDataAppend]
      show _ = d1.data ++ ['/'] ++ m.data ++ ['/'] ++ ys.data
      simp [List.append_assoc]
    have hnod1 : '/' ∉ d1.data := fun hmem => (hd1 '/' hmem) (by simp)
    have hnom : '/' ∉ m.data := fun hmem => (hm '/' hmem) (by simp)
    have hnoy : '/' ∉ ys.data := fun hmem => (hysn '/' hmem) (by simp)
    have hsplit : pySplitSlash (d1 ++ "/" ++ m ++ "/" ++ ys) = [d1, m, ys] := by
      unfold pySplitSlash
      have hdata2 : (d1 ++ "/" ++ m ++ "/" ++ ys).data =
          d1.data ++ '/' :: (m.data ++ '/' :: ys.data) := by
        simp only [strDataAppend]
        show d1.data ++ ['/'] ++ m.data ++ ['/'] ++ ys.data = _
        simp [List.append_assoc]
      rw [hdata2, pySplitChar_append '/' d1.data _ hnod1,
        pySplitChar_append '/' m.data _ hnom, pySplitChar_no_sep '/' ys.data hnoy]
      simp [strMkData]
    have hyne : ys.data ≠ [] := by
      intro he
      rw [he] at hlen
      exact absurd hlen (by decide)
    unfold cleanDateOfBirth
    rw [htr]
    simp only [Bool.not_true, Bool.false_eq_true, if_false]
    rw [hget]
    simp only
    rw [hrep, hsplit]
    simp only
    rw [if_pos (show ys.length = 2 from hlen)]
    rw [show pyInt? ys = some (digitsToNat ys.data : Int) from by
      rw [← strMkData ys]
      exact pyInt?_digits ys.data hyne hys]
  · intro d s hget hsplit3
    unfold cleanDateOfBirth
    by_cases htr : pyGetTruthy d "date_of_birth" = true
    · rw [htr]
      simp only [Bool.not_true, Bool.false_eq_true, if_false]
      rw [hget]
      simp only
      split
      · next day month year heq =>
          rw [heq] at hsplit3
          simp at hsplit3
      · rfl
    · rw [Bool.of_not_eq_true htr]
      rfl

/-- C6 witness: a dotted date with a two-digit year, and a two-part
string left untouched. -/
theorem C6_date_normalization_witness :
    pyGet [("date_of_birth", PyVal.str "3.4.05")] "date_of_birth" =
      some (.str ("3" ++ String.mk ['.'] ++ "4" ++ String.mk ['.'] ++ "05")) ∧
    cleanDateOfBirth [("date_of_birth", PyVal.str "3.4.05")] =
      .ok (pySet [("date_of_birth", PyVal.str "3.4.05")] "date_of_birth"
        (.str ("3" ++ "/" ++ "4" ++ "/" ++
          (if (digitsToNat "05".data : Int) ≥ 50 then "19" ++ "05"
           else "20" ++ "05")))) ∧
    cleanDateOfBirth [("date_of_birth", PyVal.str "1/2")] =
      .ok [("date_of_birth", PyVal.str "1/2")] :=
  ⟨by decide,
   C6_date_normalization.1 [("date_of_birth", PyVal.str "3.4.05")] "3" "4" "05"
     '.' (by decide) (by decide) (by decide) (by decide) (by decide) (by decide),
   C6_date_normalization.2 [("date_of_birth", PyVal.str "1/2")] "1/2" rfl
     (by decide)⟩

/-- C1 counterexample: in a concrete run (one trustee page, failing
provider) the stored per-section entity still carries the key
`existing_aj_bell_account`, which is not a field of the registered
`TrusteeDetails` schema, and it differs from the `model_dump` that
schema validation of this very entity would produce — so the stored
result was not passed through schema validation and does not have the
schema's shape. -/
theorem C1_counterexample :
    sampleTrusteeRun = .ok [("trustee_details", .dict sampleTrusteeStored)] ∧
    pyContains sampleTrusteeStored "existing_aj_bell_account" = true ∧
    (trusteeSchemaFields.map Prod.fst).contains "existing_aj_bell_account" =
      false ∧
    validateTrusteeDetails sampleTrusteeStored = .ok sampleTrusteeValidated ∧
    sampleTrusteeValidated ≠ sampleTrusteeStored ∧
    pyContains sampleTrusteeValidated "existing_aj_bell_account" = false :=
  ⟨by decide, by decide, by decide, by decide, by decide, by decide⟩

/-- C1 amended: every entity the orchestrator stores is exactly the
output of the section extractor pipeline — model-or-fallback extraction
followed by the section's normalization chain — on the space-joined
text of the section's identified pages; schema validation is not part
of the stored value's computation. -/
theorem C1_stored_is_extractor_output (et : PageTextMap)
    (sectionsFilter : Option (List String)) (provider : Provider) (r : PyDict)
    (h : processDocument et sectionsFilter provider = .ok r)
    (sec : DocumentSection) (v : PyVal) (hv : pyGet r sec.value = some v) :
    ∃ pages : List Nat,
      sectionLookup (identifySections et) sec = some pages ∧ pages ≠ [] ∧
      extractFor sec provider (joinSpace (pages.map (pageText et))) = .ok v := by
  unfold processDocument at h
  split at h
  · injection h with h
    rw [← h] at hv
    exact absurd hv (by simp [pyGet])
  · rcases processFold_lookup (identifySections et) et provider
      (sectionsToProcess et sectionsFilter) [] r h sec v hv with hl | ⟨_, hne, hex⟩
    · exact absurd hl (by simp [pyGet])
    · refine ⟨(sectionLookup (identifySections et) sec).getD [], ?_, hne, hex⟩
      rw [identify_lookup]
      rfl

/-- C1 witness: the bank-account section on a one-page document with a
failing provider. -/
theorem C1_stored_is_extractor_output_witness :
    processDocument [(0, "bank account")] Option.none
      (fun _ _ => Except.error "ProviderError") =
      .ok [("nominated_bank_account", .dict
        [("account_holder_name", .str ""), ("account_number", .str ""),
         ("sort_code", .str "")])] ∧
    pyGet [("nominated_bank_account", PyVal.dict
        [("account_holder_name", .str ""), ("account_number", .str ""),
         ("sort_code", .str "")])]
      (DocumentSection.nominated_bank_account).value =
      some (.dict [("account_holder_name", .str ""),
        ("account_number", .str ""), ("sort_code", .str "")]) ∧
    (∃ pages : List Nat,
      sectionLookup (identifySections [(0, "bank account")])
        .nominated_bank_account = some pages ∧ pages ≠ [] ∧
      extractFor .nominated_bank_account
        (fun _ _ => Except.error "ProviderError")
        (joinSpace (pages.map (pageText [(0, "bank account")]))) =
        .ok (.dict [("account_holder_name", .str ""),
          ("account_number", .str ""), ("sort_code", .str "")])) :=
  ⟨by decide, by decide,
   C1_stored_is_extractor_output [(0, "bank account")] Option.none
     (fun _ _ => Except.error "ProviderError")
     [("nominated_bank_account", .dict
       [("account_holder_name", .str ""), ("account_number", .str ""),
        ("sort_code", .str "")])]
     (by decide) .nominated_bank_account
     (.dict [("account_holder_name", .str ""), ("account_number", .str ""),
       ("sort_code", .str "")])
     (by decide)⟩

end Spec2Proof
